import Mathlib

/-!
Verification development for the ingestion normalization, scoring and
conflict-detection pipeline of the Footballmaster service.

The definitions below are a shallow embedding of the Python modules
`services/api/common/uid.py`, `services/api/common/importance.py`,
`services/api/common/factors.py`, `services/api/common/causal.py`,
`services/api/common/normalizer.py` and `services/api/api/dpc.py`.

Modelling conventions:
* Python values occurring in payloads (JSON-like data) are modelled by the
  inductive type `PyVal` (ints, floats, strings, booleans, None).  Float
  arithmetic inside payload coercions is modelled exactly over `ℚ`; the
  factor/causal arithmetic, which involves `exp`, is modelled over `ℝ`.
* Python functions that can raise (`float(...)`, `int(...)`, `.upper()` on a
  non-string, ...) are modelled as `Except String _`.
* String helpers (`.lower()`, `.strip()`, `str(...)`) are modelled for the
  ASCII/plain-decimal fragment exercised by this code base; Unicode case
  tables, float `repr` of non-terminating decimals and exotic `float()`
  literals (exponents, `inf`, underscores) are outside the modelled domain
  and are not relied upon by any theorem below.
-/

/-- Characters treated as whitespace by Python `str.strip` / `\s` (ASCII part). -/
def isPyWs (c : Char) : Bool :=
  c = ' ' || c = '\t' || c = '\n' || c = '\x0d' || c = '\x0b' || c = '\x0c'

/-- Python `str.strip()` on the ASCII-whitespace fragment. -/
def pyStripS (s : String) : String :=
  String.mk (((s.toList.dropWhile isPyWs).reverse.dropWhile isPyWs).reverse)

/-- ASCII lower-casing of one character, as Python `.lower()` does on ASCII. -/
def pyLowerChar (c : Char) : Char :=
  if 65 ≤ c.toNat ∧ c.toNat ≤ 90 then Char.ofNat (c.toNat + 32) else c

/-- ASCII upper-casing of one character, as Python `.upper()` does on ASCII. -/
def pyUpperChar (c : Char) : Char :=
  if 97 ≤ c.toNat ∧ c.toNat ≤ 122 then Char.ofNat (c.toNat - 32) else c

/-- Python `str.lower()` (ASCII fragment). -/
def lowerS (s : String) : String := String.mk (s.toList.map pyLowerChar)

/-- Python `str.upper()` (ASCII fragment). -/
def upperS (s : String) : String := String.mk (s.toList.map pyUpperChar)

/-- Is the first list a prefix of the second? -/
def listIsPrefix {α : Type} [DecidableEq α] : List α → List α → Bool
  | [], _ => true
  | _ :: _, [] => false
  | a :: t, b :: u => a = b && listIsPrefix t u

/-- `s.startswith(pre)` (kernel-reducible model of `String.startsWith`). -/
def strStartsWith (s pre : String) : Bool := listIsPrefix pre.toList s.toList

/-- First `n` characters of a string. -/
def strTake (s : String) (n : ℕ) : String := String.mk (s.toList.take n)

/-- Split a character list on a separator character (`str.split(c)`). -/
def splitOnChar (c : Char) : List Char → List (List Char)
  | [] => [[]]
  | a :: t =>
      if a = c then [] :: splitOnChar c t
      else
        match splitOnChar c t with
        | h :: r => (a :: h) :: r
        | [] => [[a]]

/-- `sep.join(parts)`. -/
def joinSep (sep : String) : List String → String
  | [] => ""
  | [x] => x
  | x :: t => x ++ sep ++ joinSep sep t

/-- Python values as they occur in ingested payloads. -/
inductive PyVal where
  | vInt (n : ℤ)
  | vFloat (q : ℚ)
  | vStr (s : String)
  | vBool (b : Bool)
  | vNone
deriving DecidableEq

/-- A Python dict with string keys, as an insertion-ordered association list
(Python dicts preserve insertion order). -/
abbrev Payload := List (String × PyVal)

/-- Lookup in an association list (first binding wins, mirroring a dict). -/
def mapLookup {α β : Type} [DecidableEq α] : List (α × β) → α → Option β
  | [], _ => none
  | (k', v) :: t, k => if k' = k then some v else mapLookup t k

/-- Dict assignment `m[k] = v`: replace the binding in place if the key
exists, otherwise append it (Python dict update order). -/
def mapSet {α β : Type} [DecidableEq α] : List (α × β) → α → β → List (α × β)
  | [], k, v => [(k, v)]
  | (k', v') :: t, k, v => if k' = k then (k, v) :: t else (k', v') :: mapSet t k v

/-- Python truthiness `bool(x)` for the modelled values. -/
def pyTruthy : PyVal → Bool
  | .vInt n => n ≠ 0
  | .vFloat q => q ≠ 0
  | .vStr s => s ≠ ""
  | .vBool b => b
  | .vNone => false

/-- Python `a or b` on values. -/
def pyOrV (a b : PyVal) : PyVal := if pyTruthy a then a else b

/-- Python `payload.get(k)` (missing keys give `None`). -/
def getV (p : Payload) (k : String) : PyVal := (mapLookup p k).getD .vNone

/-- Python `payload.get(k, d)`. -/
def getVD (p : Payload) (k : String) (d : PyVal) : PyVal := (mapLookup p k).getD d

/-- Decimal digits of a character list, most significant first. -/
def digitsToNat (l : List Char) : ℕ := l.foldl (fun acc c => 10 * acc + (c.toNat - 48)) 0

/-- Is this an ASCII decimal digit? -/
def isDig (c : Char) : Bool := 48 ≤ c.toNat && c.toNat ≤ 57

/-- Smallest `k ≤ 40` with `d ∣ 10^k`, if any (used to render terminating
decimals the way Python `repr` prints floats given by such literals). -/
def pow10Exp (d : ℕ) : Option ℕ := (List.range 41).find? (fun k => 10 ^ k % d = 0)

/-- Rendering of a rational as Python renders the corresponding float
(`str`/`repr`): exact for terminating decimals, which covers every float
appearing in this code base. -/
def floatRepr (q : ℚ) : String :=
  let sign := if q < 0 then "-" else ""
  let n := q.num.natAbs
  let d := q.den
  match pow10Exp d with
  | some k =>
      let m := n * 10 ^ k / d
      let ip := m / 10 ^ k
      let fp := m % 10 ^ k
      if k = 0 then sign ++ toString ip ++ ".0"
      else
        let fs := toString fp
        let pad := String.mk (List.replicate (k - fs.length) '0')
        sign ++ toString ip ++ "." ++ pad ++ fs
  | none => sign ++ toString n ++ "/" ++ toString d

/-- Python `str(x)` on the modelled values. -/
def pyStrV : PyVal → String
  | .vStr s => s
  | .vInt n => toString n
  | .vFloat q => floatRepr q
  | .vBool true => "True"
  | .vBool false => "False"
  | .vNone => "None"

/-- Python `repr(x)`, as used by `str` on a dict (strings get quoted). -/
def pyReprV : PyVal → String
  | .vStr s => String.singleton (Char.ofNat 39) ++ s ++ String.singleton (Char.ofNat 39)
  | v => pyStrV v

/-- Python `str(payload)` for a dict, used only for the ingest size ceiling. -/
def pyStrOfPayload (p : Payload) : String :=
  "\x7b" ++
    joinSep ", "
      (p.map (fun kv =>
        String.singleton (Char.ofNat 39) ++ kv.1 ++ String.singleton (Char.ofNat 39)
          ++ ": " ++ pyReprV kv.2)) ++ "\x7d"

/-- Parse a plain decimal float literal the way Python `float(str)` does
(optional sign, digits, one optional dot; whitespace stripped). -/
def pyParseFloat (s : String) : Option ℚ :=
  let t := (pyStripS s).toList
  let sg : ℚ := if t.head? = some '-' then -1 else 1
  let t := match t with
    | '-' :: r => r
    | '+' :: r => r
    | _ => t
  match (splitOnChar '.' t).map String.mk with
  | [a] =>
      if a ≠ "" && a.toList.all isDig then some (sg * (digitsToNat a.toList : ℚ)) else none
  | [a, b] =>
      if (a ≠ "" || b ≠ "") && a.toList.all isDig && b.toList.all isDig then
        some (sg * ((digitsToNat a.toList : ℚ) + (digitsToNat b.toList : ℚ) / 10 ^ b.length))
      else none
  | _ => none

/-- Parse a plain integer literal the way Python `int(str)` does. -/
def pyParseInt (s : String) : Option ℤ :=
  let t := (pyStripS s).toList
  let (sg, t) : ℤ × List Char := match t with
    | '-' :: r => (-1, r)
    | '+' :: r => (1, r)
    | _ => (1, t)
  if t ≠ [] && t.all isDig then some (sg * (digitsToNat t : ℤ)) else none

/-- Truncation of a rational toward zero, as Python `int(float)` does. -/
def ratTrunc (q : ℚ) : ℤ := if 0 ≤ q then ⌊q⌋ else ⌈q⌉

/-- Python `float(x)`: raises on `None` and on non-numeric strings. -/
def pyFloatE : PyVal → Except String ℚ
  | .vInt n => .ok (n : ℚ)
  | .vFloat q => .ok q
  | .vBool b => .ok (if b then 1 else 0)
  | .vStr s =>
      match pyParseFloat s with
      | some q => .ok q
      | none => .error "ValueError: could not convert string to float"
  | .vNone => .error "TypeError: float() argument is None"

/-- Python `int(x)`: truncates floats toward zero, raises on `None` and on
strings that are not plain integer literals. -/
def pyIntE : PyVal → Except String ℤ
  | .vInt n => .ok n
  | .vFloat q => .ok (ratTrunc q)
  | .vBool b => .ok (if b then 1 else 0)
  | .vStr s =>
      match pyParseInt s with
      | some n => .ok n
      | none => .error "ValueError: invalid literal for int()"
  | .vNone => .error "TypeError: int() argument is None"

/-- Python `.lower()` called on a value that must be a string (raises
`AttributeError` otherwise). -/
def pyLowerE : PyVal → Except String String
  | .vStr s => .ok (lowerS s)
  | _ => .error "AttributeError: object has no attribute lower"

/-- Python `.upper()` called on a value that must be a string (raises
`AttributeError` otherwise). -/
def pyUpperE : PyVal → Except String String
  | .vStr s => .ok (upperS s)
  | _ => .error "AttributeError: object has no attribute upper"

/-- `isinstance(x, (int, float))`; note Python booleans are instances of
`int`, so `vBool` passes the check. -/
def isNumV : PyVal → Bool
  | .vInt _ => true
  | .vFloat _ => true
  | .vBool _ => true
  | _ => false

/-- Numeric value of a `PyVal` that passed `isNumV` (`float(x)` there). -/
def numOfV : PyVal → ℚ
  | .vInt n => (n : ℚ)
  | .vFloat q => q
  | .vBool b => if b then 1 else 0
  | _ => 0

/-- View a payload value as the `Optional[str]` the source passes around;
non-string truthy values would raise inside the source before being used,
and are outside the modelled domain. -/
def optStrOfV : PyVal → Option String
  | .vStr s => some s
  | _ => none

/-! ## `common/uid.py` — slugs, SHA-1 short hashes, UID generation -/

/-- Collapse maximal whitespace runs to single underscores, as
`re.sub(r"\s+", "_", s)` does. -/
def collapseWsGo : Bool → List Char → List Char
  | _, [] => []
  | prevWs, c :: rest =>
      if isPyWs c then
        if prevWs then collapseWsGo true rest else '_' :: collapseWsGo true rest
      else c :: collapseWsGo false rest

/-- Is the character kept by the slug filter `[a-z0-9_]`? -/
def isSlugChar (c : Char) : Bool :=
  (97 ≤ c.toNat && c.toNat ≤ 122) || (48 ≤ c.toNat && c.toNat ≤ 57) || c = '_'

/-- `uid._slug`: lowercase, collapse whitespace to underscores, strip
non-alphanumeric/underscore characters. -/
def slug (s : String) : String :=
  String.mk ((collapseWsGo false (lowerS (pyStripS s)).toList).filter isSlugChar)

/-- `uid.normalize_name`. -/
def normalize_name (name : Option String) : String :=
  match name with
  | none => ""
  | some s => if s = "" then "" else slug s

/-- UTF-8 bytes of one character. -/
def utf8Char (c : Char) : List ℕ :=
  let n := c.toNat
  if n < 128 then [n]
  else if n < 2048 then [192 + n / 64, 128 + n % 64]
  else if n < 65536 then [224 + n / 4096, 128 + n / 64 % 64, 128 + n % 64]
  else [240 + n / 262144, 128 + n / 4096 % 64, 128 + n / 64 % 64, 128 + n % 64]

/-- UTF-8 encoding of a string, as Python `s.encode("utf-8")`. -/
def utf8Bytes (s : String) : List ℕ := s.toList.flatMap utf8Char

/-- Rotate a 32-bit word left by `k` bits. -/
def rotl32 (k x : ℕ) : ℕ := ((x * 2 ^ k) % 2 ^ 32) + x / 2 ^ (32 - k)

/-- Split a byte list into 64-byte blocks. -/
def chunks64 (l : List ℕ) : List (List ℕ) :=
  if h : l = [] then []
  else
    have : (List.drop 64 l).length < l.length := by
      have hl : 0 < l.length := List.length_pos.mpr h
      simp only [List.length_drop]
      omega
    l.take 64 :: chunks64 (l.drop 64)
termination_by l.length

/-- SHA-1 padding of a message. -/
def sha1Pad (msg : List ℕ) : List ℕ :=
  let len := msg.length
  msg ++ [128] ++ List.replicate ((120 - (len + 1) % 64) % 64) 0 ++
    (List.range 8).map (fun i => 8 * len / 2 ^ (8 * (7 - i)) % 256)

/-- The 16 initial 32-bit words of one 64-byte SHA-1 block (big endian). -/
def sha1Words (block : List ℕ) : List ℕ :=
  (List.range 16).map (fun i =>
    block.getD (4 * i) 0 * 16777216 + block.getD (4 * i + 1) 0 * 65536 +
      block.getD (4 * i + 2) 0 * 256 + block.getD (4 * i + 3) 0)

/-- Extend 16 words to the 80-word SHA-1 message schedule. -/
def sha1Schedule (w : List ℕ) : List ℕ :=
  (List.range 64).foldl
    (fun ws i =>
      ws ++ [rotl32 1 (Nat.xor (Nat.xor (ws.getD (i + 13) 0) (ws.getD (i + 8) 0))
        (Nat.xor (ws.getD (i + 2) 0) (ws.getD i 0)))])
    w

/-- One SHA-1 round. -/
def sha1Round (w : List ℕ) (st : ℕ × ℕ × ℕ × ℕ × ℕ) (i : ℕ) : ℕ × ℕ × ℕ × ℕ × ℕ :=
  let (a, b, c, d, e) := st
  let f :=
    if i < 20 then Nat.lor (Nat.land b c) (Nat.land (2 ^ 32 - 1 - b) d)
    else if i < 40 then Nat.xor (Nat.xor b c) d
    else if i < 60 then Nat.lor (Nat.lor (Nat.land b c) (Nat.land b d)) (Nat.land c d)
    else Nat.xor (Nat.xor b c) d
  let k :=
    if i < 20 then 1518500249
    else if i < 40 then 1859775393
    else if i < 60 then 2400959708
    else 3395469782
  let tmp := (rotl32 5 a + f + e + k + w.getD i 0) % 2 ^ 32
  (tmp, a, rotl32 30 b, c, d)

/-- Process one 64-byte block, updating the five SHA-1 state words. -/
def sha1Block (h : ℕ × ℕ × ℕ × ℕ × ℕ) (block : List ℕ) : ℕ × ℕ × ℕ × ℕ × ℕ :=
  let (h0, h1, h2, h3, h4) := h
  let w := sha1Schedule (sha1Words block)
  let (a, b, c, d, e) := (List.range 80).foldl (sha1Round w) (h0, h1, h2, h3, h4)
  ((h0 + a) % 2 ^ 32, (h1 + b) % 2 ^ 32, (h2 + c) % 2 ^ 32, (h3 + d) % 2 ^ 32,
    (h4 + e) % 2 ^ 32)

/-- Hex digit characters. -/
def hexDig (n : ℕ) : Char := "0123456789abcdef".toList.getD n '0'

/-- Lower-case hex rendering of a 32-bit word. -/
def hex32 (n : ℕ) : String :=
  String.mk ((List.range 8).map (fun i => hexDig (n / 16 ^ (7 - i) % 16)))

/-- Hex digest of the SHA-1 hash of a byte list, as
`hashlib.sha1(...).hexdigest()`. -/
def sha1Hex (msg : List ℕ) : String :=
  let (h0, h1, h2, h3, h4) :=
    (chunks64 (sha1Pad msg)).foldl sha1Block
      (1732584193, 4023233417, 2562383102, 271733878, 3285377520)
  hex32 h0 ++ hex32 h1 ++ hex32 h2 ++ hex32 h3 ++ hex32 h4

/-- `uid.hash_short`: first 10 hex chars of the SHA-1 of the parts joined
with `||`. -/
def hash_short (parts : List String) : String :=
  strTake (sha1Hex (utf8Bytes (joinSep "||" parts))) 10

/-- Python truthiness of an `Optional[str]` (`None` and `""` are falsy). -/
def optTruthy (o : Option String) : Bool := o.getD "" ≠ ""

/-- `uid.make_player_uid`. -/
def make_player_uid (provider provider_player_id name birth_date : Option String) :
    String :=
  if optTruthy provider && optTruthy provider_player_id then
    "plr_" ++ slug (provider.getD "") ++ "_" ++ slug (provider_player_id.getD "")
  else
    "plr_global_" ++ hash_short [normalize_name name ++ "|" ++ pyStripS (birth_date.getD "")]

/-- `uid.make_coach_uid`. -/
def make_coach_uid (provider provider_id name birth_date : Option String) : String :=
  if optTruthy provider && optTruthy provider_id then
    "coach_" ++ slug (provider.getD "") ++ "_" ++ slug (provider_id.getD "")
  else
    "coach_global_" ++ hash_short [normalize_name name ++ "|" ++ pyStripS (birth_date.getD "")]

/-- `uid.make_ref_uid`. -/
def make_ref_uid (provider provider_id name birth_date : Option String) : String :=
  if optTruthy provider && optTruthy provider_id then
    "ref_" ++ slug (provider.getD "") ++ "_" ++ slug (provider_id.getD "")
  else
    "ref_global_" ++ hash_short [normalize_name name ++ "|" ++ pyStripS (birth_date.getD "")]

/-! ## `uid.detect_conflicts` -/

/-- One element of the list handed to `detect_conflicts` by the ingest
handler: a dict with `entity_type`, `entity_id` and `payload`. -/
structure CItem where
  entity_type : String
  entity_id : Option String
  payload : Payload
deriving DecidableEq

/-- The entity kinds scanned for conflicts. -/
def okKindB (c : CItem) : Bool := c.entity_type ∈ (["player", "coach", "referee"] : List String)

/-- The `(provider, provider_id)` pair computed for one item:
`str(payload.get("provider") or "").lower().strip()` and
`str(payload.get("provider_id") or payload.get("provider_player_id") or "").strip()`. -/
def pairOfC (c : CItem) : String × String :=
  (pyStripS (lowerS (pyStrV (pyOrV (getV c.payload "provider") (.vStr "")))),
   pyStripS (pyStrV (pyOrV (getV c.payload "provider_id")
     (pyOrV (getV c.payload "provider_player_id") (.vStr "")))))

/-- The `(normalized name, stripped birth date)` key of one item.  A
non-string truthy `birth_date` would raise in the source and is outside the
modelled domain. -/
def keyOfC (c : CItem) : String × String :=
  (normalize_name (optStrOfV (getV c.payload "name")),
   match pyOrV (getV c.payload "birth_date") (.vStr "") with
   | .vStr s => pyStripS s
   | _ => "")

/-- State of the `detect_conflicts` scan: the two lookup tables and the
accumulated marks.  Keys of `marks` are entity ids (`Option String`, since
the source uses the raw dict value as key). -/
structure DCState where
  byP : List ((String × String) × Option String)
  byN : List ((String × String) × Option String)
  marks : List (Option String × String)

/-- The provider-identity phase of the `detect_conflicts` loop body: a
`(provider, provider_id)` pair seen with two different entity ids marks both
ids `block:provider_id_conflict`. -/
def dcProv (st : DCState) (it : CItem) : DCState :=
  let eid := it.entity_id
  let pr := pairOfC it
  if pr.1 ≠ "" ∧ pr.2 ≠ "" then
    match mapLookup st.byP pr with
    | some e' =>
        if e' = eid then { st with byP := mapSet st.byP pr eid }
        else { st with marks := (mapSet (mapSet st.marks eid "block:provider_id_conflict")
                 e' "block:provider_id_conflict") }
    | none => { st with byP := mapSet st.byP pr eid }
  else st

/-- The name/birth-date phase of the `detect_conflicts` loop body: the same
non-empty `(normalized name, birth_date)` key seen with two different entity
ids marks both ids `warn:possible_duplicate` (overwriting any existing mark,
as the source dict assignment does). -/
def dcName (st : DCState) (it : CItem) : DCState :=
  let eid := it.entity_id
  let key := keyOfC it
  if key.1 ≠ "" ∧ key.2 ≠ "" then
    match mapLookup st.byN key with
    | some e' =>
        if e' = eid then { st with byN := mapSet st.byN key eid }
        else { st with marks := (mapSet (mapSet st.marks eid "warn:possible_duplicate")
                 e' "warn:possible_duplicate") }
    | none => { st with byN := mapSet st.byN key eid }
  else st

/-- The loop body of `detect_conflicts` for one item. -/
def dcStep (st : DCState) (it : CItem) : DCState :=
  if okKindB it then dcName (dcProv st it) it else st

/-- `uid.detect_conflicts`: scan the batch, returning the marks dict. -/
def detect_conflicts (items : List CItem) : List (Option String × String) :=
  (items.foldl dcStep ⟨[], [], []⟩).marks

/-! ## `common/importance.py` — importance scoring -/

namespace Importance

/-- `importance.clamp01`. -/
def clamp01 (x : ℚ) : ℚ := if x < 0 then 0 else if x > 1 then 1 else x

/-- `importance.tier_from_score`. -/
def tier_from_score (s : ℚ) : String :=
  if s ≥ 0.80 then "A" else if s ≥ 0.60 then "B" else if s ≥ 0.40 then "C" else "D"

/-- `importance.priority_from_score`. -/
def priority_from_score (s : ℚ) : ℕ :=
  if s ≥ 0.80 then 1 else if s ≥ 0.60 then 2 else if s ≥ 0.40 then 3
  else if s ≥ 0.20 then 4 else 5

/-- `importance.score_player`.  `(p.get("position") or "").upper()` raises on
a truthy non-string value, hence the `Except`. -/
def score_player (p : Payload) : Except String ℚ :=
  match pyUpperE (pyOrV (getV p "position") (.vStr "")) with
  | .error e => .error e
  | .ok pos =>
  let s : ℚ :=
    if pos = "F" then 0.70 else if pos = "M" then 0.60 else if pos = "D" then 0.55
    else if pos = "GK" then 0.50 else 0.50
  let s :=
    if isNumV (getV p "starter_prob") then s + 0.30 * clamp01 (numOfV (getV p "starter_prob"))
    else match getV p "starter" with
      | .vBool b => s + (if b then 0.20 else 0)
      | _ => s
  let s :=
    if isNumV (getV p "market_value_m") then
      let mv := numOfV (getV p "market_value_m")
      if mv ≥ 80 then s + 0.20 else if mv ≥ 40 then s + 0.12
      else if mv ≥ 20 then s + 0.07 else if mv ≥ 5 then s + 0.03 else s
    else s
  let s :=
    if isNumV (getV p "minutes_rolling") then
      s + 0.15 * clamp01 (numOfV (getV p "minutes_rolling"))
    else s
  let jersey := pyStripS (pyStrV (pyOrV (getV p "jersey_no") (.vStr "")))
  let s :=
    if jersey ∈ (["10", "7", "9"] : List String) then s + 0.06
    else if jersey ∈ (["8", "11"] : List String) then s + 0.04
    else if jersey = "1" then s + 0.03 else s
  let s := if getV p "key_flag" = .vBool true then s + 0.10 else s
  .ok (clamp01 s)

/-- `importance.score_coach`. -/
def score_coach (p : Payload) : ℚ :=
  let s := ([("stability", (0.25 : ℚ)), ("style_impact", 0.25), ("reputation", 0.20)]).foldl
    (fun s kw =>
      if isNumV (getV p kw.1) then s + kw.2 * clamp01 (numOfV (getV p kw.1)) else s)
    (0.55 : ℚ)
  clamp01 s

/-- `importance.score_referee`. -/
def score_referee (p : Payload) : ℚ :=
  let s : ℚ := 0.45
  let s := if isNumV (getV p "red_rate") then s + 0.20 * clamp01 (numOfV (getV p "red_rate")) else s
  let s :=
    if isNumV (getV p "penalty_rate") then s + 0.15 * clamp01 (numOfV (getV p "penalty_rate"))
    else s
  let s := if getV p "fifa_badge" = .vBool true then s + 0.10 else s
  clamp01 s

/-- `importance.score_jersey`. -/
def score_jersey (p : Payload) : ℚ :=
  let s := ([("popularity", (0.40 : ℚ)), ("legacy", 0.40)]).foldl
    (fun s kw =>
      if isNumV (getV p kw.1) then s + kw.2 * clamp01 (numOfV (getV p kw.1)) else s)
    (0.30 : ℚ)
  clamp01 s

/-- Output of the importance scorer. -/
structure ImportanceResult where
  score : ℚ
  tier : String
  priority : ℕ
deriving DecidableEq

/-- `importance.score`: dispatch on the (lowered) entity type. -/
def score (entity_type : String) (payload : Payload) : Except String ImportanceResult :=
  let et := lowerS entity_type
  if et = "player" then
    match score_player payload with
    | .error e => .error e
    | .ok s => .ok ⟨s, tier_from_score s, priority_from_score s⟩
  else
    let s : ℚ :=
      if et = "coach" then score_coach payload
      else if et = "referee" then score_referee payload
      else if et ∈ (["jersey", "jersey_no", "kit"] : List String) then score_jersey payload
      else 0.30
    .ok ⟨s, tier_from_score s, priority_from_score s⟩

end Importance

/-! ## `api/dpc.py` — the ingest handler -/

/-- An `IngestItem` as parsed by the endpoint (pydantic validation of the
blank-string and confidence-range rules happens at parse time, upstream of
the modelled handler). -/
structure IngestItem where
  schema_name : String
  schema_version : String
  entity_type : String
  entity_id : Option String
  payload : Payload
  run_id : Option String
  source_id : Option String
  signature : Option String
  confidence : Option ℚ
  snapshot_ts : Option ℚ
deriving DecidableEq

/-- An `IngestBatch`. -/
structure IngestBatch where
  items : List IngestItem
  dry_run : Bool
deriving DecidableEq

/-- `dpc._validate_item`, returning `(status, message)`. -/
def validateItem (it : IngestItem) : String × String :=
  if it.payload = [] then ("block", "payload empty")
  else if (pyStrOfPayload it.payload).length > 200000 then
    ("block", "payload too large (>200k chars)")
  else match it.confidence with
    | none => ("warn", "confidence missing; set to None")
    | some _ => ("accepted", "ok")

/-- Step 1 of `dpc.ingest` for one item: default the snapshot timestamp and
fill in a generated entity id when the current one lacks the kind prefix. -/
def fillEntityId (now : ℚ) (it : IngestItem) : IngestItem :=
  let it1 := { it with snapshot_ts := some (it.snapshot_ts.getD now) }
  let eid := pyStripS ((it1.entity_id.getD ""))
  if it1.entity_type = "player" ∧ ¬ strStartsWith eid "plr_" then
    { it1 with entity_id := some (make_player_uid
        (optStrOfV (getV it1.payload "provider"))
        (optStrOfV (pyOrV (getV it1.payload "provider_player_id")
          (getV it1.payload "provider_id")))
        (optStrOfV (getV it1.payload "name"))
        (optStrOfV (getV it1.payload "birth_date"))) }
  else if it1.entity_type = "coach" ∧ ¬ strStartsWith eid "coach_" then
    { it1 with entity_id := some (make_coach_uid
        (optStrOfV (getV it1.payload "provider"))
        (optStrOfV (getV it1.payload "provider_id"))
        (optStrOfV (getV it1.payload "name"))
        (optStrOfV (getV it1.payload "birth_date"))) }
  else if it1.entity_type = "referee" ∧ ¬ strStartsWith eid "ref_" then
    { it1 with entity_id := some (make_ref_uid
        (optStrOfV (getV it1.payload "provider"))
        (optStrOfV (getV it1.payload "provider_id"))
        (optStrOfV (getV it1.payload "name"))
        (optStrOfV (getV it1.payload "birth_date"))) }
  else it1

/-- One per-item entry of the ingest response. -/
structure ItemResult where
  entity_type : String
  entity_id : Option String
  schema : String
  status : String
  message : String
  importance : Importance.ImportanceResult
deriving DecidableEq

/-- Step 3 of `dpc.ingest` for one result: apply a conflict mark, if any.  A
`block` tag forces the status; a `warn` tag downgrades only an `accepted`
status; the tag is appended to the message. -/
def applyMark (marks : List (Option String × String)) (r : ItemResult) : ItemResult :=
  match mapLookup marks r.entity_id with
  | none => r
  | some tag =>
      let r1 :=
        if strStartsWith tag "block" then { r with status := "block" }
        else if strStartsWith tag "warn" ∧ r.status = "accepted" then { r with status := "warn" }
        else r
      { r1 with message := if r1.message ≠ "" then r1.message ++ " | " ++ tag else tag }

/-- Effectful map over a list in `Except`, stopping at the first error, in
source order (the handler loop raises out of the request on the first
exception). -/
def exceptMapM {α β : Type} (f : α → Except String β) : List α → Except String (List β)
  | [] => .ok []
  | x :: t =>
      match f x with
      | .error e => .error e
      | .ok y =>
          match exceptMapM f t with
          | .error e => .error e
          | .ok ys => .ok (y :: ys)

/-- The ingest response (database side effects represented by the list of
rows the handler writes, in order). -/
structure IngestOut where
  overall : String
  count : ℕ
  results : List ItemResult
  insertedItems : List IngestItem
  inserted : ℕ
  dry_run : Bool
deriving DecidableEq

/-- The body of the step-2 loop of `dpc.ingest` for one item: validate and
score it, producing its response entry. -/
def mkItemResult (it : IngestItem) : Except String ItemResult :=
  match Importance.score it.entity_type it.payload with
  | .error e => .error e
  | .ok imp =>
      .ok { entity_type := it.entity_type, entity_id := it.entity_id,
            schema := it.schema_name ++ "@" ++ it.schema_version,
            status := (validateItem it).1, message := (validateItem it).2, importance := imp }

/-- Assemble the ingest response from the per-item results (steps 2-5 of the
handler, after the fallible validation/scoring loop). -/
def assembleOut (batch : IngestBatch) (normalized : List IngestItem)
    (results0 : List ItemResult) : IngestOut :=
  let toInsert := normalized.filter (fun it => (validateItem it).1 = "accepted" && !batch.dry_run)
  let marks := detect_conflicts (normalized.map (fun it => ⟨it.entity_type, it.entity_id, it.payload⟩))
  let results := results0.map (applyMark marks)
  let overall :=
    if results.any (fun r => r.status = "block") then "block"
    else if results.any (fun r => r.status = "warn") then "warn"
    else "accepted"
  ⟨overall, results.length, results, toInsert, toInsert.length, batch.dry_run⟩

/-- `dpc.ingest` (after auth): fill entity ids, validate and score each item,
collect the to-insert list, detect batch conflicts, apply marks, insert, and
summarize the overall status.  The source initializes `results` inside the
step-1 loop due to stray indentation; since pydantic rejects empty batches,
that is equivalent to the plain initialization modelled here. -/
def ingestModel (batch : IngestBatch) (now : ℚ) : Except String IngestOut :=
  let normalized := batch.items.map (fillEntityId now)
  match exceptMapM mkItemResult normalized with
  | .error e => .error e
  | .ok results0 => .ok (assembleOut batch normalized results0)

/-! ## `common/factors.py` — factor evaluators and impact mapping

Scores live in `ℝ` because the injuries evaluator uses `exp`; exact real
arithmetic stands in for float arithmetic. -/

/-- `factors._clamp01` over the reals. -/
noncomputable def clamp01R (x : ℝ) : ℝ := if x < 0 then 0 else if x > 1 then 1 else x

/-- `factors._sigmoid` with the default steepness `k = 4` (the only one the
source uses). -/
noncomputable def pySigmoid (x : ℝ) : ℝ := 1 / (1 + Real.exp (-(4 * x)))

/-- Output of one factor evaluator. -/
structure FactorResult where
  name : String
  score : ℝ
  explain : String

/-- `factors.f_schedule_density`. -/
noncomputable def f_schedule_density (p : Payload) : Except String FactorResult :=
  match pyFloatE (getVD p "games_7d" (.vInt 0)) with
  | .error e => .error e
  | .ok games =>
  match pyFloatE (getVD p "avg_rest_day" (.vInt 4)) with
  | .error e => .error e
  | .ok rest =>
  let raw : ℝ := (games : ℝ) / 3 + max 0 (4 - (rest : ℝ)) / 4
  .ok ⟨"schedule_density", clamp01R (raw * 0.6),
    "games_7d=" ++ floatRepr games ++ ", rest=" ++ floatRepr rest ++ "d"⟩

/-- `factors.f_season_phase`. -/
noncomputable def f_season_phase (p : Payload) : Except String FactorResult :=
  match pyLowerE (pyOrV (getV p "phase") (.vStr "mid")) with
  | .error e => .error e
  | .ok phase =>
  let score : ℝ :=
    if phase = "early" then 0.35 else if phase = "mid" then 0.5
    else if phase = "late" then 0.65 else if phase = "critical" then 0.85 else 0.5
  .ok ⟨"season_phase", score, "phase=" ++ phase⟩

/-- `factors.f_injuries`. -/
noncomputable def f_injuries (p : Payload) : Except String FactorResult :=
  match pyIntE (getVD p "key_absent" (.vInt 0)) with
  | .error e => .error e
  | .ok key_out =>
  match pyIntE (getVD p "total_absent" (.vInt 0)) with
  | .error e => .error e
  | .ok total_out =>
  .ok ⟨"injuries",
    clamp01R (0.7 * pySigmoid (key_out : ℝ) + 0.3 * clamp01R ((total_out : ℝ) / 5)),
    "key_out=" ++ toString key_out ++ ", total_out=" ++ toString total_out⟩

/-- `factors.f_referee`. -/
noncomputable def f_referee (p : Payload) : Except String FactorResult :=
  match pyFloatE (getVD p "red_rate" (.vFloat 0)) with
  | .error e => .error e
  | .ok red =>
  match pyFloatE (getVD p "penalty_rate" (.vFloat 0)) with
  | .error e => .error e
  | .ok pen =>
  let swap := pyTruthy (getVD p "late_swap" (.vBool false))
  .ok ⟨"referee_volatility",
    clamp01R (0.5 * (red : ℝ) + 0.3 * (pen : ℝ) + (if swap then 0.2 else 0)),
    "red=" ++ floatRepr red ++ ", pen=" ++ floatRepr pen ++ ", swap=" ++
      (if swap then "True" else "False")⟩

/-- `factors.f_media`. -/
noncomputable def f_media (p : Payload) : Except String FactorResult :=
  let scandal := pyTruthy (getVD p "scandal" (.vBool false))
  let transfer := pyTruthy (getVD p "transfer_hot" (.vBool false))
  match pyFloatE (getVD p "hype_score" (.vFloat 0)) with
  | .error e => .error e
  | .ok hype =>
  .ok ⟨"media_pressure",
    clamp01R ((if scandal then 0.4 else 0) + (if transfer then 0.3 else 0) + 0.3 * (hype : ℝ)),
    "scandal=" ++ (if scandal then "True" else "False") ++ ", transfer=" ++
      (if transfer then "True" else "False") ++ ", hype=" ++ floatRepr hype⟩

/-- `factors.f_rivalry`. -/
noncomputable def f_rivalry (p : Payload) : Except String FactorResult :=
  match pyFloatE (getVD p "derby_strength" (.vFloat 0)) with
  | .error e => .error e
  | .ok hist =>
  match pyFloatE (getVD p "recent_tension" (.vFloat 0)) with
  | .error e => .error e
  | .ok recent =>
  .ok ⟨"rivalry", clamp01R (0.6 * (hist : ℝ) + 0.4 * (recent : ℝ)),
    "hist=" ++ floatRepr hist ++ ", recent=" ++ floatRepr recent⟩

/-- `factors.f_social`. -/
noncomputable def f_social (p : Payload) : Except String FactorResult :=
  match pyIntE (getVD p "S" (.vInt 0)) with
  | .error e => .error e
  | .ok s => .ok ⟨"social", clamp01R ((s : ℝ) / 3), "S=" ++ toString s⟩

/-- `factors.impact_mapping`, returning `(error_mul, weight_mul)`. -/
noncomputable def impact_mapping (name : String) (score : ℝ) : ℝ × ℝ :=
  if name = "injuries" then (1 - 0.2 * score, 1 + 0.5 * score)
  else if name = "social" then (1 - 0.1 * score, 1)
  else if name = "referee_volatility" then (1 + 0.1 * score, 1)
  else if name = "rivalry" then (1, 1 + 2 * score)
  else if name = "schedule_density" then (1 + 0.08 * score, 1 + 0.5 * score)
  else if name = "season_phase" then (1, 0.8 + 0.4 * score)
  else if name = "media_pressure" then (1 + 0.06 * score, 1 + 0.3 * score)
  else (1, 1)

/-- `factors.FACTOR_FUNCS`. -/
noncomputable def FACTOR_FUNCS : List (Payload → Except String FactorResult) :=
  [f_schedule_density, f_season_phase, f_injuries, f_referee, f_media, f_rivalry, f_social]

/-- One entry of `evaluate_factors(...)["items"]`: a factor result updated
with its impact multipliers. -/
structure FItem where
  name : String
  score : ℝ
  explain : String
  error_mul : ℝ
  weight_mul : ℝ

/-- Exact half-even rounding to an integer, the model of Python `round`
on the floats this pipeline produces. -/
noncomputable def roundHE (x : ℝ) : ℤ :=
  if x - ⌊x⌋ < 1 / 2 then ⌊x⌋
  else if 1 / 2 < x - ⌊x⌋ then ⌊x⌋ + 1
  else if Even ⌊x⌋ then ⌊x⌋ else ⌊x⌋ + 1

/-- `round(x, n)` over the reals (also the model of `causal._round`, whose
`try`/`except` never fires on the float inputs this pipeline passes it). -/
noncomputable def roundR (n : ℕ) (x : ℝ) : ℝ := (roundHE (x * 10 ^ n) : ℝ) / 10 ^ n

/-- The loop body of `evaluate_factors` for one factor function. -/
noncomputable def efStep (context : Payload) (acc : List FItem × ℝ × ℝ)
    (fn : Payload → Except String FactorResult) : Except String (List FItem × ℝ × ℝ) :=
  match fn context with
  | .error e => .error e
  | .ok r =>
      let imp := impact_mapping r.name r.score
      .ok (acc.1 ++ [⟨r.name, r.score, r.explain, imp.1, imp.2⟩],
        acc.2.1 * imp.1, acc.2.2 * imp.2)

/-- The fold of `evaluate_factors` over the factor functions. -/
noncomputable def efFold (context : Payload) :
    List (Payload → Except String FactorResult) → List FItem × ℝ × ℝ →
      Except String (List FItem × ℝ × ℝ)
  | [], acc => .ok acc
  | fn :: t, acc =>
      match efStep context acc fn with
      | .error e => .error e
      | .ok acc2 => efFold context t acc2

/-- The `aggregate`d output of `factors.evaluate_factors`. -/
structure EvalOut where
  items : List FItem
  aggError : ℝ
  aggWeight : ℝ

/-- `factors.evaluate_factors` (`context or {}` is the identity on the
modelled dicts, the empty dict being falsy). -/
noncomputable def evaluate_factors (context : Payload) : Except String EvalOut :=
  match efFold context FACTOR_FUNCS ([], 1, 1) with
  | .error e => .error e
  | .ok acc => .ok ⟨acc.1, roundR 4 acc.2.1, roundR 4 acc.2.2⟩

/-! ## `common/causal.py` — the causal snapshot -/

/-- The ranking key of `causal._top_drivers`. -/
noncomputable def impactOf (it : FItem) : ℝ := |it.error_mul - 1| + 0.5 * |it.weight_mul - 1|

/-- Insert into a list sorted by decreasing impact (the model of the stable
descending sort; no theorem below depends on the relative order of
equal-impact factors). -/
noncomputable def insertByImpact (a : FItem) : List FItem → List FItem
  | [] => [a]
  | b :: l => if impactOf b ≤ impactOf a then a :: b :: l else b :: insertByImpact a l

/-- Sort by decreasing impact. -/
noncomputable def sortByImpact : List FItem → List FItem
  | [] => []
  | a :: l => insertByImpact a (sortByImpact l)

/-- One ranked driver of `causal._top_drivers`. -/
structure DriverOut where
  name : String
  score : ℝ
  impact_error_delta : ℝ
  impact_weight_mul : ℝ
  explain : String

/-- `causal._top_drivers`. -/
noncomputable def top_drivers (items : List FItem) (p0 : ℝ) : List DriverOut :=
  ((sortByImpact items).take 3).map (fun it =>
    ⟨it.name, roundR 3 it.score, roundR 5 (p0 * (it.error_mul - 1)),
      roundR 4 it.weight_mul, it.explain⟩)

/-- The snapshot returned by `causal.causal_snapshot`. -/
structure CausalOut where
  p0 : ℝ
  error_mul : ℝ
  weight_mul : ℝ
  adjusted_error : ℝ
  drivers : List DriverOut

/-- `causal.causal_snapshot`: fold the optional clamped upset index into the
aggregate multipliers (a non-floatable value is swallowed by the source's
`try`/`except`), adjust the baseline error, and rank drivers. -/
noncomputable def causal_snapshot (factors : EvalOut) (payload : Payload)
    (p0 : ℝ := 0.021) : CausalOut :=
  let st : List FItem × ℝ × ℝ :=
    match mapLookup payload "odds_deviation" with
    | none => (factors.items, factors.aggError, factors.aggWeight)
    | some v =>
        match pyFloatE v with
        | .error _ => (factors.items, factors.aggError, factors.aggWeight)
        | .ok uq =>
            let u : ℚ := max 0 (min 1 uq)
            (factors.items ++ [⟨"upset_index", (u : ℝ), "odds_deviation=" ++ floatRepr u,
                1 + 0.08 * (u : ℝ), 1 + 0.40 * (u : ℝ)⟩],
              factors.aggError * (1 + 0.08 * (u : ℝ)),
              factors.aggWeight * (1 + 0.40 * (u : ℝ)))
  let adj := p0 * st.2.1
  ⟨roundR 5 p0, roundR 4 st.2.1, roundR 4 st.2.2, roundR 5 adj, top_drivers st.1 p0⟩

/-! ## `common/normalizer.py` -/

namespace Normalizer

/-- `normalizer._coerce_float`. -/
def coerceFloat (v : PyVal) (d : ℚ) : ℚ :=
  match pyFloatE v with
  | .ok q => q
  | .error _ => d

/-- `normalizer._coerce_int`. -/
def coerceInt (v : PyVal) (d : ℤ) : ℤ :=
  match pyIntE v with
  | .ok n => n
  | .error _ => d

/-- `normalizer._truthy`. -/
def truthy (v : PyVal) : Bool :=
  match v with
  | .vBool b => b
  | .vNone => false
  | v => lowerS (pyStripS (pyStrV v)) ∈ (["1", "true", "yes", "y", "t", "on"] : List String)

/-- Is one list a contiguous run of another (`needle in haystack`)? -/
def isPrefixL {α : Type} [DecidableEq α] : List α → List α → Bool
  | [], _ => true
  | _ :: _, [] => false
  | a :: t, b :: u => a = b && isPrefixL t u

/-- Python substring containment `needle in hay`. -/
def isInfixL {α : Type} [DecidableEq α] : List α → List α → Bool
  | n, [] => n.isEmpty
  | n, b :: u => isPrefixL n (b :: u) || isInfixL n u

/-- Substring test on strings. -/
def containsSub (needle hay : String) : Bool := isInfixL needle.toList hay.toList

/-- `normalizer._from_apifootball`. -/
def from_apifootball (p : Payload) : Payload :=
  let rnd := lowerS (pyStrV (pyOrV (getV p "af_season_round") (.vStr "")))
  let phase :=
    if (["final", "semi", "quarter", "playoff"] : List String).any (fun k => containsSub k rnd)
    then "critical"
    else if (["round_1", "matchday_1", "md1"] : List String).any (fun k => containsSub k rnd)
    then "early"
    else if (["round_34", "md34", "matchday_34", "last"] : List String).any
        (fun k => containsSub k rnd)
    then "late"
    else "mid"
  [("games_7d", .vFloat (coerceFloat (getVD p "af_games_7d" (.vInt 0)) 0)),
   ("avg_rest_day", .vFloat (coerceFloat (getVD p "af_avg_rest_day" (.vInt 4)) 4)),
   ("phase", .vStr phase),
   ("key_absent", .vInt (coerceInt (getVD p "af_key_absent" (.vInt 0)) 0)),
   ("total_absent", .vInt (coerceInt (getVD p "af_total_absent" (.vInt 0)) 0)),
   ("red_rate", .vFloat (coerceFloat (getVD p "af_ref_red_rate" (.vInt 0)) 0)),
   ("penalty_rate", .vFloat (coerceFloat (getVD p "af_ref_pen_rate" (.vInt 0)) 0)),
   ("late_swap", .vBool (truthy (getVD p "af_ref_late_swap" (.vBool false)))),
   ("scandal", .vBool (truthy (getVD p "af_scandal" (.vBool false)))),
   ("transfer_hot", .vBool (truthy (getVD p "af_transfer_hot" (.vBool false)))),
   ("hype_score", .vFloat (coerceFloat (getVD p "af_hype" (.vInt 0)) 0)),
   ("derby_strength", .vFloat (coerceFloat (getVD p "af_derby_strength" (.vInt 0)) 0)),
   ("recent_tension", .vFloat (coerceFloat (getVD p "af_recent_tension" (.vInt 0)) 0)),
   ("S", .vInt (coerceInt (getVD p "af_S" (.vInt 0)) 0))]

/-- `isinstance(x, (int, float, str))` (booleans included, being ints). -/
def isNumStrV : PyVal → Bool
  | .vNone => false
  | _ => true

/-- `normalizer._from_crawler`. -/
def from_crawler (p : Payload) : Except String Payload :=
  let red := getV p "ref_red%"
  let pen := getV p "ref_pk%"
  match pyLowerE (pyOrV (getV p "season_phase") (.vStr "mid")) with
  | .error e => .error e
  | .ok phase =>
  .ok [("games_7d", .vFloat (coerceFloat (getVD p "games_last_7d" (.vInt 0)) 0)),
    ("avg_rest_day", .vFloat (coerceFloat (getVD p "rest_avg_days" (.vInt 4)) 4)),
    ("phase", .vStr phase),
    ("key_absent", .vInt (coerceInt (getVD p "key_out" (.vInt 0)) 0)),
    ("total_absent", .vInt (coerceInt (getVD p "total_out" (.vInt 0)) 0)),
    ("red_rate", .vFloat (coerceFloat red 0 / (if isNumStrV red then 100 else 1))),
    ("penalty_rate", .vFloat (coerceFloat pen 0 / (if isNumStrV pen then 100 else 1))),
    ("late_swap", .vBool (truthy (getVD p "ref_late_swap" (.vBool false)))),
    ("scandal", .vBool (truthy (getVD p "news_scandal" (.vBool false)))),
    ("transfer_hot", .vBool (truthy (getVD p "transfer_heat" (.vBool false)))),
    ("hype_score", .vFloat (coerceFloat (getVD p "hype" (.vInt 0)) 0)),
    ("derby_strength", .vFloat (coerceFloat (getVD p "derby_idx" (.vInt 0)) 0)),
    ("recent_tension", .vFloat (coerceFloat (getVD p "tension_idx" (.vInt 0)) 0)),
    ("S", .vInt (coerceInt (getVD p "covid_level" (.vInt 0)) 0))]

/-- `normalizer._from_manual` (localized keys take precedence over the
canonical ones). -/
def from_manual (p : Payload) : Except String Payload :=
  match pyLowerE (pyOrV (getVD p "阶段" (getVD p "phase" (.vStr "mid"))) (.vStr "mid")) with
  | .error e => .error e
  | .ok phase =>
  .ok [("games_7d", .vFloat (coerceFloat (getVD p "赛程近7天" (getVD p "games_7d" (.vInt 0))) 0)),
    ("avg_rest_day",
      .vFloat (coerceFloat (getVD p "平均休息日" (getVD p "avg_rest_day" (.vInt 4))) 4)),
    ("phase", .vStr phase),
    ("key_absent", .vInt (coerceInt (getVD p "关键缺阵" (getVD p "key_absent" (.vInt 0))) 0)),
    ("total_absent", .vInt (coerceInt (getVD p "缺阵总数" (getVD p "total_absent" (.vInt 0))) 0)),
    ("red_rate", .vFloat (coerceFloat (getVD p "红牌率" (getVD p "red_rate" (.vInt 0))) 0)),
    ("penalty_rate", .vFloat (coerceFloat (getVD p "点球率" (getVD p "penalty_rate" (.vInt 0))) 0)),
    ("late_swap", .vBool (truthy (getVD p "临时换裁" (getVD p "late_swap" (.vBool false))))),
    ("scandal", .vBool (truthy (getVD p "丑闻" (getVD p "scandal" (.vBool false))))),
    ("transfer_hot", .vBool (truthy (getVD p "转会热" (getVD p "transfer_hot" (.vBool false))))),
    ("hype_score", .vFloat (coerceFloat (getVD p "热度" (getVD p "hype_score" (.vInt 0))) 0)),
    ("derby_strength",
      .vFloat (coerceFloat (getVD p "宿敌强度" (getVD p "derby_strength" (.vInt 0))) 0)),
    ("recent_tension",
      .vFloat (coerceFloat (getVD p "近期紧张" (getVD p "recent_tension" (.vInt 0))) 0)),
    ("S", .vInt (coerceInt (getVD p "社会S" (getVD p "S" (.vInt 0))) 0))]

/-- `out = dict(payload); out.update(m)`. -/
def updateAssoc (p m : Payload) : Payload := m.foldl (fun acc kv => mapSet acc kv.1 kv.2) p

/-- `normalizer.normalize`: detect the source shape and merge the canonical
keys over the raw payload. -/
def normalize (payload : Payload) : Except String Payload :=
  match
    match mapLookup payload "source" with
    | none => Except.ok ""
    | some v => pyLowerE (pyOrV v (.vStr ""))
  with
  | .error e => .error e
  | .ok src =>
  let keys := payload.map (fun kv => kv.1)
  match
    if src = "apifootball" || keys.any (fun k => strStartsWith k "af_") then
      Except.ok (from_apifootball payload)
    else if src = "crawler" || keys.contains "games_last_7d" || keys.contains "ref_red%" then
      from_crawler payload
    else if src = "manual" ||
        (["赛程近7天", "平均休息日", "阶段"] : List String).any (fun k => keys.contains k) then
      from_manual payload
    else from_manual payload
  with
  | .error e => .error e
  | .ok m => .ok (updateAssoc payload m)

end Normalizer

/-! ## Concrete inputs and statement predicates used by the verification -/

instance {ε α : Type} [DecidableEq ε] [DecidableEq α] : DecidableEq (Except ε α) :=
  fun x y =>
    match x, y with
    | .ok a, .ok b => if h : a = b then .isTrue (by rw [h]) else .isFalse (by simp [h])
    | .error a, .error b => if h : a = b then .isTrue (by rw [h]) else .isFalse (by simp [h])
    | .ok _, .error _ => .isFalse (by simp)
    | .error _, .ok _ => .isFalse (by simp)

/-- No two conflict-eligible items of the batch share a non-empty
`(normalized name, birth_date)` key under different entity ids — i.e. the
`warn:possible_duplicate` rule never fires. -/
def NoWarnDup (items : List CItem) : Prop :=
  ∀ a ∈ items, ∀ b ∈ items, okKindB a = true → okKindB b = true →
    keyOfC a = keyOfC b → (keyOfC a).1 ≠ "" → (keyOfC a).2 ≠ "" →
    a.entity_id = b.entity_id

/-- Invariant of the `detect_conflicts` scan over the processed prefix `L`:
every `byP` binding comes from a processed item; every processed item with a
non-empty provider pair either owns its `byP` binding or is block-marked
together with the binding's owner; every `byN` binding comes from a processed
item. -/
def DCInv (L : List CItem) (st : DCState) : Prop :=
  (∀ p e, mapLookup st.byP p = some e → ∃ c ∈ L, okKindB c = true ∧ pairOfC c = p ∧
    p.1 ≠ "" ∧ p.2 ≠ "" ∧ c.entity_id = e) ∧
  (∀ c ∈ L, okKindB c = true → (pairOfC c).1 ≠ "" → (pairOfC c).2 ≠ "" →
    ∃ e, mapLookup st.byP (pairOfC c) = some e ∧
      (e = c.entity_id ∨
        (mapLookup st.marks c.entity_id = some "block:provider_id_conflict" ∧
         mapLookup st.marks e = some "block:provider_id_conflict"))) ∧
  (∀ k e, mapLookup st.byN k = some e → ∃ c ∈ L, okKindB c = true ∧ keyOfC c = k ∧
    k.1 ≠ "" ∧ k.2 ≠ "" ∧ c.entity_id = e)

/-- A player ingest item colliding on `(statsco, p1)`, with confidence set so
validation accepts it. -/
def c1ItemA : IngestItem :=
  ⟨"player", "1.0", "player", some "plr_a",
   [("provider", .vStr "statsco"), ("provider_id", .vStr "p1")], none, none, none,
   some (9/10), none⟩

/-- The second colliding player item, with a different client entity id. -/
def c1ItemB : IngestItem :=
  ⟨"player", "1.0", "player", some "plr_b",
   [("provider", .vStr "statsco"), ("provider_id", .vStr "p1")], none, none, none,
   some (9/10), none⟩

/-- A non-dry-run batch of the two colliding items. -/
def batchC1 : IngestBatch := ⟨[c1ItemA, c1ItemB], false⟩

/-- A player item with entity id `e` that collides with its twin both on
provider identity and on `(name, birth_date)`. -/
def mkDupItem (e : String) : CItem :=
  ⟨"player", some e,
   [("provider", .vStr "statsco"), ("provider_id", .vStr "p1"),
    ("name", .vStr "Alex Roe"), ("birth_date", .vStr "1990-01-01")]⟩

/-- A coach item colliding on provider identity and on name/birth date. -/
def c4CoachA : CItem :=
  ⟨"coach", some "coach_a",
   [("provider", .vStr "louproviders"), ("provider_id", .vStr "c7"),
    ("name", .vStr "Bo Li"), ("birth_date", .vStr "1970-02-02")]⟩

/-- Its twin with a different entity id. -/
def c4CoachB : CItem :=
  ⟨"coach", some "coach_b",
   [("provider", .vStr "louproviders"), ("provider_id", .vStr "c7"),
    ("name", .vStr "Bo Li"), ("birth_date", .vStr "1970-02-02")]⟩

/-- The spec example: `entityType="player"`, provider `statsco`,
providerId `p1`, client entity id `plr_a`. -/
def c4PlrA : CItem :=
  ⟨"player", some "plr_a", [("provider", .vStr "statsco"), ("provider_id", .vStr "p1")]⟩

/-- The spec example twin with client entity id `plr_b`. -/
def c4PlrB : CItem :=
  ⟨"player", some "plr_b", [("provider", .vStr "statsco"), ("provider_id", .vStr "p1")]⟩

/-- The evaluation payload of the spec example
`{games_7d:6, avg_rest_day:2, phase:"critical", key_absent:2, total_absent:4,
red_rate:0.3, penalty_rate:0.1, late_swap:true, S:3}`. -/
def c3Payload : Payload :=
  [("games_7d", .vInt 6), ("avg_rest_day", .vInt 2), ("phase", .vStr "critical"),
   ("key_absent", .vInt 2), ("total_absent", .vInt 4), ("red_rate", .vFloat (3/10)),
   ("penalty_rate", .vFloat (1/10)), ("late_swap", .vBool true), ("S", .vInt 3)]

/-- A payload whose `games_7d` is a non-numeric string: `float()` raises. -/
def c6BadFactorPayload : Payload := [("games_7d", .vStr "abc")]

/-- A payload whose `position` is a truthy non-string: `.upper()` raises. -/
def c6BadImportancePayload : Payload := [("position", .vInt 1)]

/-- A payload carrying an upset index, to exercise the optional causal factor. -/
def c7UpsetPayload : Payload := [("odds_deviation", .vFloat (1/2))]

/-- An already-canonical payload (all 14 canonical keys, canonical types, no
source markers, plus a passthrough extra field). -/
def c9Payload : Payload :=
  [("games_7d", .vFloat 1), ("avg_rest_day", .vFloat 3), ("phase", .vStr "mid"),
   ("key_absent", .vInt 0), ("total_absent", .vInt 1), ("red_rate", .vFloat 0),
   ("penalty_rate", .vFloat 0), ("late_swap", .vBool false), ("scandal", .vBool false),
   ("transfer_hot", .vBool false), ("hype_score", .vFloat 0),
   ("derby_strength", .vFloat 0), ("recent_tension", .vFloat 0), ("S", .vInt 0),
   ("note", .vStr "raw")]

/-- A valid single-item dry-run batch (entity type without a UID generator). -/
def c5Item : IngestItem :=
  ⟨"match", "1.0", "match", some "m1", [("k", .vStr "v")], none, none, none, some 1, none⟩

/-- The batch around `c5Item`. -/
def c5Batch : IngestBatch := ⟨[c5Item], true⟩

/-- A valid item whose confidence is absent. -/
def c10Item : IngestItem :=
  ⟨"m", "1", "match", some "", [("k", .vStr "v")], none, none, none, none, none⟩

/-- A non-dry-run batch around `c10Item`. -/
def c10Batch : IngestBatch := ⟨[c10Item], false⟩

/-- An accepted per-item result for exercising the mark application. -/
def c2Res : ItemResult := ⟨"player", some "plr_x", "s@1", "accepted", "ok", ⟨1/2, "C", 3⟩⟩

/-- Marks carrying a `warn` tag for `c2Res`. -/
def c2Marks : List (Option String × String) := [(some "plr_x", "warn:possible_duplicate")]

/-- Does the value have float type? -/
def isFloatV : PyVal → Bool
  | .vFloat _ => true
  | _ => false

/-- Does the value have int type? -/
def isIntV : PyVal → Bool
  | .vInt _ => true
  | _ => false

/-- Does the value have string type? -/
def isStrV : PyVal → Bool
  | .vStr _ => true
  | _ => false

/-- Does the value have bool type? -/
def isBoolV : PyVal → Bool
  | .vBool _ => true
  | _ => false

/-- The 14 canonical keys produced by the normalizer. -/
def canonicalKeys : List String :=
  ["games_7d", "avg_rest_day", "phase", "key_absent", "total_absent", "red_rate",
   "penalty_rate", "late_swap", "scandal", "transfer_hot", "hype_score",
   "derby_strength", "recent_tension", "S"]

/-- The payload already carries every canonical key, at its canonical type. -/
def canonicalTypedB (p : Payload) : Bool :=
  isFloatV (getV p "games_7d") && isFloatV (getV p "avg_rest_day") &&
  isStrV (getV p "phase") && isIntV (getV p "key_absent") &&
  isIntV (getV p "total_absent") && isFloatV (getV p "red_rate") &&
  isFloatV (getV p "penalty_rate") && isBoolV (getV p "late_swap") &&
  isBoolV (getV p "scandal") && isBoolV (getV p "transfer_hot") &&
  isFloatV (getV p "hype_score") && isFloatV (getV p "derby_strength") &&
  isFloatV (getV p "recent_tension") && isIntV (getV p "S")

/-- The payload carries none of the source-shape markers the normalizer
detects (`source` field, `af_` keys, crawler keys, manual localized keys). -/
def noMarkersB (p : Payload) : Bool :=
  (mapLookup p "source").isNone &&
  !(p.map (fun kv => kv.1)).any (fun k => strStartsWith k "af_") &&
  !(p.map (fun kv => kv.1)).contains "games_last_7d" &&
  !(p.map (fun kv => kv.1)).contains "ref_red%" &&
  !(p.map (fun kv => kv.1)).contains "赛程近7天" &&
  !(p.map (fun kv => kv.1)).contains "平均休息日" &&
  !(p.map (fun kv => kv.1)).contains "阶段"

/-- The canonical association list built by `from_manual` once its phase
scrutinee has resolved to the string `ph`. -/
def manualCanon (p : Payload) (ph : String) : Payload :=
  [("games_7d",
     .vFloat (Normalizer.coerceFloat (getVD p "赛程近7天" (getVD p "games_7d" (.vInt 0))) 0)),
   ("avg_rest_day",
     .vFloat (Normalizer.coerceFloat (getVD p "平均休息日" (getVD p "avg_rest_day" (.vInt 4))) 4)),
   ("phase", .vStr ph),
   ("key_absent",
     .vInt (Normalizer.coerceInt (getVD p "关键缺阵" (getVD p "key_absent" (.vInt 0))) 0)),
   ("total_absent",
     .vInt (Normalizer.coerceInt (getVD p "缺阵总数" (getVD p "total_absent" (.vInt 0))) 0)),
   ("red_rate",
     .vFloat (Normalizer.coerceFloat (getVD p "红牌率" (getVD p "red_rate" (.vInt 0))) 0)),
   ("penalty_rate",
     .vFloat (Normalizer.coerceFloat (getVD p "点球率" (getVD p "penalty_rate" (.vInt 0))) 0)),
   ("late_swap",
     .vBool (Normalizer.truthy (getVD p "临时换裁" (getVD p "late_swap" (.vBool false))))),
   ("scandal", .vBool (Normalizer.truthy (getVD p "丑闻" (getVD p "scandal" (.vBool false))))),
   ("transfer_hot",
     .vBool (Normalizer.truthy (getVD p "转会热" (getVD p "transfer_hot" (.vBool false))))),
   ("hype_score",
     .vFloat (Normalizer.coerceFloat (getVD p "热度" (getVD p "hype_score" (.vInt 0))) 0)),
   ("derby_strength",
     .vFloat (Normalizer.coerceFloat (getVD p "宿敌强度" (getVD p "derby_strength" (.vInt 0))) 0)),
   ("recent_tension",
     .vFloat (Normalizer.coerceFloat (getVD p "近期紧张" (getVD p "recent_tension" (.vInt 0))) 0)),
   ("S", .vInt (Normalizer.coerceInt (getVD p "社会S" (getVD p "S" (.vInt 0))) 0))]

/-! ## Lemmas and claim theorems -/

lemma mapLookup_set_self {α β : Type} [DecidableEq α] (m : List (α × β)) (k : α) (v : β) :
    mapLookup (mapSet m k v) k = some v := by
  induction m with
  | nil => simp [mapSet, mapLookup]
  | cons hd t ih =>
      by_cases h : hd.1 = k
      · simp [mapSet, mapLookup, h]
      · simpa [mapSet, mapLookup, h] using ih

lemma mapLookup_set_ne {α β : Type} [DecidableEq α] (m : List (α × β)) (k k' : α) (v : β)
    (h : k ≠ k') : mapLookup (mapSet m k v) k' = mapLookup m k' := by
  induction m with
  | nil => simp [mapSet, mapLookup, h]
  | cons hd t ih =>
      by_cases h1 : hd.1 = k
      · simp [mapSet, mapLookup, h1, h]
      · simp only [mapSet, if_neg h1, mapLookup]
        by_cases h2 : hd.1 = k'
        · simp [h2]
        · simpa [h2] using ih

/-- C8: UID generation is deterministic — equal inputs yield equal ids — and
produces `{prefix}_{slug provider}_{slug providerId}` when both provider and
provider id are present and non-empty, else
`{prefix}_global_{hash_short(normalized name | birth date)}`, with prefixes
`plr`/`coach`/`ref` by entity kind. -/
theorem c8_make_uid :
    (∀ a b c d a' b' c' d' : Option String, a = a' → b = b' → c = c' → d = d' →
      make_player_uid a b c d = make_player_uid a' b' c' d' ∧
      make_coach_uid a b c d = make_coach_uid a' b' c' d' ∧
      make_ref_uid a b c d = make_ref_uid a' b' c' d') ∧
    (∀ (a b c d : Option String) (p i : String), a = some p → b = some i → p ≠ "" → i ≠ "" →
      make_player_uid a b c d = "plr_" ++ slug p ++ "_" ++ slug i ∧
      make_coach_uid a b c d = "coach_" ++ slug p ++ "_" ++ slug i ∧
      make_ref_uid a b c d = "ref_" ++ slug p ++ "_" ++ slug i) ∧
    (∀ a b c d : Option String, ¬(optTruthy a = true ∧ optTruthy b = true) →
      make_player_uid a b c d =
        "plr_global_" ++ hash_short [normalize_name c ++ "|" ++ pyStripS (d.getD "")] ∧
      make_coach_uid a b c d =
        "coach_global_" ++ hash_short [normalize_name c ++ "|" ++ pyStripS (d.getD "")] ∧
      make_ref_uid a b c d =
        "ref_global_" ++ hash_short [normalize_name c ++ "|" ++ pyStripS (d.getD "")]) := by
  refine ⟨?_, ?_, ?_⟩
  · intro a b c d a' b' c' d' h1 h2 h3 h4
    subst h1; subst h2; subst h3; subst h4
    exact ⟨rfl, rfl, rfl⟩
  · intro a b c d p i ha hb hp hi
    subst ha; subst hb
    have hc : (optTruthy (some p) && optTruthy (some i)) = true := by
      simp [optTruthy, hp, hi]
    exact ⟨by simp [make_player_uid, hc], by simp [make_coach_uid, hc],
      by simp [make_ref_uid, hc]⟩
  · intro a b c d h
    have hc : (optTruthy a && optTruthy b) = false := by
      cases h1 : optTruthy a <;> cases h2 : optTruthy b <;> simp_all
    exact ⟨by simp [make_player_uid, hc], by simp [make_coach_uid, hc],
      by simp [make_ref_uid, hc]⟩

/-- Witness for C8 at concrete inputs: a present provider pair, a hash
fallback, and determinism. -/
theorem c8_make_uid_witness :
    make_player_uid (some "StatsCo") (some "P 1") none none =
      "plr_" ++ slug "StatsCo" ++ "_" ++ slug "P 1" ∧
    make_coach_uid none (some "x") (some "Ann Lee") (some " 1990-01-01 ") =
      "coach_global_" ++
        hash_short [normalize_name (some "Ann Lee") ++ "|" ++ pyStripS " 1990-01-01 "] ∧
    make_ref_uid (some "a") (some "b") none none = make_ref_uid (some "a") (some "b") none none :=
  ⟨(c8_make_uid.2.1 _ _ none none "StatsCo" "P 1" rfl rfl (by decide) (by decide)).1,
   (c8_make_uid.2.2 none (some "x") (some "Ann Lee") (some " 1990-01-01 ") (by decide)).2.1,
   (c8_make_uid.1 _ _ _ _ _ _ _ _ rfl rfl rfl rfl).2.2⟩

/-- C1 (code-bug evidence): on `batchC1` — a non-dry-run batch of two
validation-accepted player items that collide on `(provider, provider_id)` —
conflict detection turns every final per-item status into `block`, yet the
handler still inserts both rows, because the to-insert list is collected
before the marks are applied. -/
theorem c1_block_items_persisted :
    (ingestModel batchC1 0).map
      (fun o => (o.overall, o.inserted, o.results.map (fun r => r.status))) =
      .ok ("block", 2, ["block", "block"]) := by decide

/-- C2 counterexample: with two items colliding both on provider identity and
on `(name, birth_date)`, the block mark assigned to `plr_a` is replaced by the
later warn mark in the returned map, contradicting the claim that a block mark
is never downgraded. -/
theorem c2_counterexample :
    mapLookup (detect_conflicts [mkDupItem "plr_a", mkDupItem "plr_b"]) (some "plr_a") =
      some "warn:possible_duplicate" ∧
    ¬ mapLookup (detect_conflicts [mkDupItem "plr_a", mkDupItem "plr_b"]) (some "plr_a") =
      some "block:provider_id_conflict" := by decide

lemma dcProv_skip (st : DCState) (it : CItem)
    (h : ¬((pairOfC it).1 ≠ "" ∧ (pairOfC it).2 ≠ "")) : dcProv st it = st := by
  simp only [dcProv]
  rw [if_neg h]

lemma dcProv_fresh (st : DCState) (it : CItem)
    (h : (pairOfC it).1 ≠ "" ∧ (pairOfC it).2 ≠ "")
    (hl : mapLookup st.byP (pairOfC it) = none) :
    dcProv st it = { st with byP := mapSet st.byP (pairOfC it) it.entity_id } := by
  simp only [dcProv]
  rw [if_pos h, hl]

lemma dcProv_same (st : DCState) (it : CItem) (e' : Option String)
    (h : (pairOfC it).1 ≠ "" ∧ (pairOfC it).2 ≠ "")
    (hl : mapLookup st.byP (pairOfC it) = some e') (he : e' = it.entity_id) :
    dcProv st it = { st with byP := mapSet st.byP (pairOfC it) it.entity_id } := by
  simp only [dcProv]
  rw [if_pos h, hl]
  simp [he]

lemma dcProv_conflict (st : DCState) (it : CItem) (e' : Option String)
    (h : (pairOfC it).1 ≠ "" ∧ (pairOfC it).2 ≠ "")
    (hl : mapLookup st.byP (pairOfC it) = some e') (he : ¬ e' = it.entity_id) :
    dcProv st it = { st with marks :=
      (mapSet (mapSet st.marks it.entity_id "block:provider_id_conflict")
        e' "block:provider_id_conflict") } := by
  simp only [dcProv]
  rw [if_pos h, hl]
  simp [he]

lemma dcName_skip (st : DCState) (it : CItem)
    (h : ¬((keyOfC it).1 ≠ "" ∧ (keyOfC it).2 ≠ "")) : dcName st it = st := by
  simp only [dcName]
  rw [if_neg h]

lemma dcName_fresh (st : DCState) (it : CItem)
    (h : (keyOfC it).1 ≠ "" ∧ (keyOfC it).2 ≠ "")
    (hl : mapLookup st.byN (keyOfC it) = none) :
    dcName st it = { st with byN := mapSet st.byN (keyOfC it) it.entity_id } := by
  simp only [dcName]
  rw [if_pos h, hl]

lemma dcName_same (st : DCState) (it : CItem) (e' : Option String)
    (h : (keyOfC it).1 ≠ "" ∧ (keyOfC it).2 ≠ "")
    (hl : mapLookup st.byN (keyOfC it) = some e') (he : e' = it.entity_id) :
    dcName st it = { st with byN := mapSet st.byN (keyOfC it) it.entity_id } := by
  simp only [dcName]
  rw [if_pos h, hl]
  simp [he]

lemma dcName_conflict (st : DCState) (it : CItem) (e' : Option String)
    (h : (keyOfC it).1 ≠ "" ∧ (keyOfC it).2 ≠ "")
    (hl : mapLookup st.byN (keyOfC it) = some e') (he : ¬ e' = it.entity_id) :
    dcName st it = { st with marks :=
      (mapSet (mapSet st.marks it.entity_id "warn:possible_duplicate")
        e' "warn:possible_duplicate") } := by
  simp only [dcName]
  rw [if_pos h, hl]
  simp [he]

lemma applyMark_status_eq (marks : List (Option String × String)) (r : ItemResult) :
    (applyMark marks r).status = r.status ∨ (applyMark marks r).status = "block" ∨
      ((applyMark marks r).status = "warn" ∧ r.status = "accepted") := by
  unfold applyMark
  cases mapLookup marks r.entity_id with
  | none => exact Or.inl rfl
  | some tag =>
      by_cases hb : strStartsWith tag "block" = true
      · exact Or.inr (Or.inl (by simp [hb]))
      · by_cases hw : strStartsWith tag "warn" = true ∧ r.status = "accepted"
        · exact Or.inr (Or.inr ⟨by simp [hb, hw], hw.2⟩)
        · exact Or.inl (by simp [hb, hw])

lemma applyMark_warn_source (marks : List (Option String × String)) (r : ItemResult)
    (h : (applyMark marks r).status = "warn") :
    r.status = "accepted" ∨ r.status = "warn" := by
  rcases applyMark_status_eq marks r with h1 | h1 | h1
  · rw [h1] at h
    exact Or.inr h
  · rw [h1] at h
    exact absurd h (by decide)
  · exact Or.inl h1.2

lemma okKind_mkDup (e : String) : okKindB (mkDupItem e) = true := rfl

lemma pair_mkDup (e : String) : pairOfC (mkDupItem e) = ("statsco", "p1") := rfl

lemma key_mkDup (e : String) : keyOfC (mkDupItem e) = ("alex_roe", "1990-01-01") := rfl

lemma eid_mkDup (e : String) : (mkDupItem e).entity_id = some e := rfl

/-- C2 (amended): a `block:provider_id_conflict` mark on an entity id is
replaced by `warn:possible_duplicate` when a later `(name, birth_date)`
duplicate involves the same id — the marks-dict assignment is unconditional,
shown here for every pair of distinct entity ids colliding on both keys — and
the ingestion handler downgrades an item's status to `warn` only if that
status was previously `accepted`. -/
theorem c2_block_overwritten_and_warn_only_from_accepted :
    (∀ e1 e2 : String, e1 ≠ e2 →
      mapLookup (detect_conflicts [mkDupItem e1, mkDupItem e2]) (some e1) =
        some "warn:possible_duplicate" ∧
      mapLookup (detect_conflicts [mkDupItem e1, mkDupItem e2]) (some e2) =
        some "warn:possible_duplicate") ∧
    (∀ (marks : List (Option String × String)) (r : ItemResult),
      (applyMark marks r).status = "warn" → r.status = "accepted" ∨ r.status = "warn") := by
  constructor
  · intro e1 e2 hne
    have hne12 : (some e1 : Option String) ≠ some e2 := by simpa using hne
    have hne21 : (some e2 : Option String) ≠ some e1 := by
      simpa using fun h => hne h.symm
    have hpr : ∀ e : String, (pairOfC (mkDupItem e)).1 ≠ "" ∧ (pairOfC (mkDupItem e)).2 ≠ "" := by
      intro e
      rw [pair_mkDup]
      exact ⟨by decide, by decide⟩
    have hkey : ∀ e : String, (keyOfC (mkDupItem e)).1 ≠ "" ∧ (keyOfC (mkDupItem e)).2 ≠ "" := by
      intro e
      rw [key_mkDup]
      exact ⟨by decide, by decide⟩
    have hst1 : dcStep ⟨[], [], []⟩ (mkDupItem e1) =
        ⟨[(("statsco", "p1"), some e1)], [(("alex_roe", "1990-01-01"), some e1)], []⟩ := by
      have h1 : dcProv ⟨[], [], []⟩ (mkDupItem e1) =
          ⟨[(("statsco", "p1"), some e1)], [], []⟩ := by
        rw [dcProv_fresh _ _ (hpr e1) (by rw [pair_mkDup]; rfl), pair_mkDup, eid_mkDup]
        rfl
      have h2 : dcName ⟨[(("statsco", "p1"), some e1)], [], []⟩ (mkDupItem e1) =
          ⟨[(("statsco", "p1"), some e1)], [(("alex_roe", "1990-01-01"), some e1)], []⟩ := by
        rw [dcName_fresh _ _ (hkey e1) (by rw [key_mkDup]; rfl), key_mkDup, eid_mkDup]
        rfl
      show dcStep _ _ = _
      simp only [dcStep]
      rw [if_pos (okKind_mkDup e1), h1, h2]
    have hprov : dcProv ⟨[(("statsco", "p1"), some e1)],
        [(("alex_roe", "1990-01-01"), some e1)], []⟩ (mkDupItem e2) =
        ⟨[(("statsco", "p1"), some e1)], [(("alex_roe", "1990-01-01"), some e1)],
          [(some e2, "block:provider_id_conflict"),
           (some e1, "block:provider_id_conflict")]⟩ := by
      have hlk : mapLookup ([(("statsco", "p1"), some e1)] :
          List ((String × String) × Option String)) (pairOfC (mkDupItem e2)) =
          some (some e1) := by
        rw [pair_mkDup]
        rfl
      have hne' : ¬ (some e1 : Option String) = (mkDupItem e2).entity_id := by
        rw [eid_mkDup]
        exact hne12
      rw [dcProv_conflict _ _ _ (hpr e2) hlk hne', eid_mkDup]
      simp [mapSet, hne21]
    have hname : dcName ⟨[(("statsco", "p1"), some e1)],
        [(("alex_roe", "1990-01-01"), some e1)],
        [(some e2, "block:provider_id_conflict"),
         (some e1, "block:provider_id_conflict")]⟩ (mkDupItem e2) =
        ⟨[(("statsco", "p1"), some e1)], [(("alex_roe", "1990-01-01"), some e1)],
          [(some e2, "warn:possible_duplicate"),
           (some e1, "warn:possible_duplicate")]⟩ := by
      have hlk : mapLookup ([(("alex_roe", "1990-01-01"), some e1)] :
          List ((String × String) × Option String)) (keyOfC (mkDupItem e2)) =
          some (some e1) := by
        rw [key_mkDup]
        rfl
      have hne' : ¬ (some e1 : Option String) = (mkDupItem e2).entity_id := by
        rw [eid_mkDup]
        exact hne12
      rw [dcName_conflict _ _ _ (hkey e2) hlk hne', eid_mkDup]
      simp [mapSet, hne21, hne12]
    have hsplit : dcStep ⟨[(("statsco", "p1"), some e1)],
        [(("alex_roe", "1990-01-01"), some e1)], []⟩ (mkDupItem e2) =
        dcName (dcProv ⟨[(("statsco", "p1"), some e1)],
          [(("alex_roe", "1990-01-01"), some e1)], []⟩ (mkDupItem e2)) (mkDupItem e2) := by
      simp only [dcStep]
      rw [if_pos (okKind_mkDup e2)]
    have hstates : List.foldl dcStep ⟨[], [], []⟩ [mkDupItem e1, mkDupItem e2] =
        ⟨[(("statsco", "p1"), some e1)], [(("alex_roe", "1990-01-01"), some e1)],
          [(some e2, "warn:possible_duplicate"),
           (some e1, "warn:possible_duplicate")]⟩ := by
      rw [List.foldl_cons, List.foldl_cons, List.foldl_nil, hst1, hsplit, hprov, hname]
    have hrun : detect_conflicts [mkDupItem e1, mkDupItem e2] =
        [(some e2, "warn:possible_duplicate"), (some e1, "warn:possible_duplicate")] := by
      unfold detect_conflicts
      rw [hstates]
    rw [hrun]
    constructor
    · simp [mapLookup, hne21]
    · simp [mapLookup]
  · exact applyMark_warn_source

/-- Witness for C2 at concrete inputs: entity ids `plr_a`, `plr_b`, and the
accepted result `c2Res` carrying a warn mark. -/
theorem c2_witness :
    (mapLookup (detect_conflicts [mkDupItem "plr_a", mkDupItem "plr_b"]) (some "plr_b") =
      some "warn:possible_duplicate") ∧
    (c2Res.status = "accepted" ∨ c2Res.status = "warn") :=
  ⟨(c2_block_overwritten_and_warn_only_from_accepted.1 "plr_a" "plr_b" (by decide)).2,
   c2_block_overwritten_and_warn_only_from_accepted.2 c2Marks c2Res (by decide)⟩

lemma ingestModel_ok_elim {batch : IngestBatch} {now : ℚ} {out : IngestOut}
    (h : ingestModel batch now = .ok out) :
    ∃ rs, exceptMapM mkItemResult (batch.items.map (fillEntityId now)) = .ok rs ∧
      out = assembleOut batch (batch.items.map (fillEntityId now)) rs := by
  simp only [ingestModel] at h
  cases hm : exceptMapM mkItemResult (batch.items.map (fillEntityId now)) with
  | error e =>
      rw [hm] at h
      simp at h
  | ok rs =>
      rw [hm] at h
      simp at h
      exact ⟨rs, rfl, h.symm⟩

lemma assembleOut_overall (batch : IngestBatch) (normalized : List IngestItem)
    (rs : List ItemResult) :
    (assembleOut batch normalized rs).overall =
      (if (assembleOut batch normalized rs).results.any (fun r => r.status = "block")
       then "block"
       else if (assembleOut batch normalized rs).results.any (fun r => r.status = "warn")
       then "warn" else "accepted") := rfl

lemma assembleOut_insertedItems (batch : IngestBatch) (normalized : List IngestItem)
    (rs : List ItemResult) :
    (assembleOut batch normalized rs).insertedItems =
      normalized.filter (fun it => (validateItem it).1 = "accepted" && !batch.dry_run) := rfl

lemma assembleOut_results (batch : IngestBatch) (normalized : List IngestItem)
    (rs : List ItemResult) :
    (assembleOut batch normalized rs).results =
      rs.map (applyMark (detect_conflicts
        (normalized.map (fun it => ⟨it.entity_type, it.entity_id, it.payload⟩)))) := rfl

lemma overall_spec (R : List ItemResult) :
    ((if R.any (fun r => r.status = "block") then "block"
      else if R.any (fun r => r.status = "warn") then "warn" else "accepted") = "block"
        ↔ ∃ r ∈ R, r.status = "block") ∧
    ((¬ ∃ r ∈ R, r.status = "block") →
      ((if R.any (fun r => r.status = "block") then "block"
        else if R.any (fun r => r.status = "warn") then "warn" else "accepted") = "warn"
          ↔ ∃ r ∈ R, r.status = "warn")) ∧
    ((¬ ∃ r ∈ R, r.status = "block") → (¬ ∃ r ∈ R, r.status = "warn") →
      (if R.any (fun r => r.status = "block") then "block"
        else if R.any (fun r => r.status = "warn") then "warn" else "accepted") = "accepted") := by
  have hb : R.any (fun r => r.status = "block") = true ↔ ∃ r ∈ R, r.status = "block" := by
    simp [List.any_eq_true]
  have hw : R.any (fun r => r.status = "warn") = true ↔ ∃ r ∈ R, r.status = "warn" := by
    simp [List.any_eq_true]
  refine ⟨?_, ?_, ?_⟩
  · by_cases h1 : R.any (fun r => r.status = "block") = true
    · rw [if_pos h1]
      simpa using hb.mp h1
    · rw [if_neg h1]
      constructor
      · intro hc
        by_cases h2 : R.any (fun r => r.status = "warn") = true
        · rw [if_pos h2] at hc
          exact absurd hc (by decide)
        · rw [if_neg h2] at hc
          exact absurd hc (by decide)
      · intro hc
        exact absurd (hb.mpr hc) h1
  · intro hnb
    have h1 : R.any (fun r => r.status = "block") ≠ true := fun hc => hnb (hb.mp hc)
    rw [if_neg h1]
    by_cases h2 : R.any (fun r => r.status = "warn") = true
    · rw [if_pos h2]
      simpa using hw.mp h2
    · rw [if_neg h2]
      constructor
      · intro hc
        exact absurd hc (by decide)
      · intro hc
        exact absurd (hw.mpr hc) h2
  · intro hnb hnw
    rw [if_neg (fun hc => hnb (hb.mp hc)), if_neg (fun hc => hnw (hw.mp hc))]

/-- C5: the overall batch status of every successful ingestion is `block` if
some final per-item status is `block`, else `warn` if some final per-item
status is `warn`, else `accepted`. -/
theorem c5_overall_precedence (batch : IngestBatch) (now : ℚ) (out : IngestOut)
    (h : ingestModel batch now = .ok out) :
    (out.overall = "block" ↔ ∃ r ∈ out.results, r.status = "block") ∧
    ((¬ ∃ r ∈ out.results, r.status = "block") →
      (out.overall = "warn" ↔ ∃ r ∈ out.results, r.status = "warn")) ∧
    ((¬ ∃ r ∈ out.results, r.status = "block") → (¬ ∃ r ∈ out.results, r.status = "warn") →
      out.overall = "accepted") := by
  obtain ⟨rs, hm, rfl⟩ := ingestModel_ok_elim h
  rw [assembleOut_overall]
  exact overall_spec _

/-- Witness for C5: a concrete dry-run batch, with the block case of the
precedence rule instantiated on its output. -/
theorem c5_witness :
    ∃ out, ingestModel c5Batch 0 = .ok out ∧
      (out.overall = "block" ↔ ∃ r ∈ out.results, r.status = "block") := by
  obtain ⟨out, hout⟩ : ∃ out, ingestModel c5Batch 0 = .ok out := ⟨_, rfl⟩
  exact ⟨out, hout, (c5_overall_precedence _ _ _ hout).1⟩

lemma fillEntityId_payload (now : ℚ) (it : IngestItem) :
    (fillEntityId now it).payload = it.payload := by
  simp only [fillEntityId]
  split_ifs <;> rfl

lemma fillEntityId_confidence (now : ℚ) (it : IngestItem) :
    (fillEntityId now it).confidence = it.confidence := by
  simp only [fillEntityId]
  split_ifs <;> rfl

lemma validateItem_fill (now : ℚ) (it : IngestItem) :
    validateItem (fillEntityId now it) = validateItem it := by
  unfold validateItem
  rw [fillEntityId_payload, fillEntityId_confidence]

lemma exceptMapM_mem {α β : Type} (f : α → Except String β) :
    ∀ {xs : List α} {ys : List β}, exceptMapM f xs = .ok ys →
      ∀ x ∈ xs, ∃ y ∈ ys, f x = .ok y := by
  intro xs
  induction xs with
  | nil =>
      intro ys h x hx
      simp at hx
  | cons a t ih =>
      intro ys h x hx
      unfold exceptMapM at h
      cases hfa : f a with
      | error e =>
          rw [hfa] at h
          simp at h
      | ok y =>
          rw [hfa] at h
          cases hmt : exceptMapM f t with
          | error e =>
              rw [hmt] at h
              simp at h
          | ok ys' =>
              rw [hmt] at h
              simp at h
              rcases List.mem_cons.mp hx with h1 | h1
              · subst h1
                exact ⟨y, by rw [← h]; exact List.mem_cons_self _ _, hfa⟩
              · obtain ⟨y', hy', hfy'⟩ := ih hmt x h1
                exact ⟨y', by rw [← h]; exact List.mem_cons_of_mem _ hy', hfy'⟩

lemma mkItemResult_ok {it : IngestItem} {y : ItemResult} (h : mkItemResult it = .ok y) :
    y.status = (validateItem it).1 ∧ y.entity_id = it.entity_id := by
  unfold mkItemResult at h
  cases hs : Importance.score it.entity_type it.payload with
  | error e =>
      rw [hs] at h
      simp at h
  | ok imp =>
      rw [hs] at h
      simp at h
      rw [← h]
      exact ⟨rfl, rfl⟩

lemma validateItem_none_not_accepted (it : IngestItem) (h : it.confidence = none) :
    (validateItem it).1 ≠ "accepted" := by
  unfold validateItem
  split_ifs
  · decide
  · decide
  · rw [h]
    decide

lemma validateItem_warn_of_missing (it : IngestItem) (h1 : it.payload ≠ [])
    (h2 : (pyStrOfPayload it.payload).length ≤ 200000) (h3 : it.confidence = none) :
    validateItem it = ("warn", "confidence missing; set to None") := by
  unfold validateItem
  rw [if_neg h1, if_neg (by omega), h3]

/-- C10: an item with a non-empty, within-ceiling payload but no confidence is
validated `warn` with message `confidence missing; set to None`; no item that
reaches the insert list lacks a confidence (so such an item is never
persisted, dry-run or not); and its presence forces the batch overall status
away from `accepted` — to `warn` when nothing in the batch blocks. -/
theorem c10_missing_confidence :
    (∀ it : IngestItem, it.payload ≠ [] → (pyStrOfPayload it.payload).length ≤ 200000 →
      it.confidence = none → validateItem it = ("warn", "confidence missing; set to None")) ∧
    (∀ (batch : IngestBatch) (now : ℚ) (out : IngestOut) (it : IngestItem),
      ingestModel batch now = .ok out → it ∈ out.insertedItems → it.confidence ≠ none) ∧
    (∀ (batch : IngestBatch) (now : ℚ) (out : IngestOut),
      ingestModel batch now = .ok out →
      (∃ it ∈ batch.items, it.payload ≠ [] ∧ (pyStrOfPayload it.payload).length ≤ 200000 ∧
        it.confidence = none) →
      out.overall ≠ "accepted" ∧
      ((¬ ∃ r ∈ out.results, r.status = "block") → out.overall = "warn")) := by
  refine ⟨validateItem_warn_of_missing, ?_, ?_⟩
  · intro batch now out it h hins hconf
    obtain ⟨rs, hm, rfl⟩ := ingestModel_ok_elim h
    rw [assembleOut_insertedItems] at hins
    have := (List.mem_filter.mp hins).2
    have hacc : (validateItem it).1 = "accepted" := by
      rcases Bool.and_eq_true .. |>.mp this with ⟨h1, _⟩
      simpa using h1
    exact validateItem_none_not_accepted it hconf hacc
  · intro batch now out h hex
    obtain ⟨it, hit, hpne, hsize, hconf⟩ := hex
    obtain ⟨rs, hm, rfl⟩ := ingestModel_ok_elim h
    have hfill : fillEntityId now it ∈ batch.items.map (fillEntityId now) :=
      List.mem_map_of_mem _ hit
    obtain ⟨y, hy, hfy⟩ := exceptMapM_mem _ hm _ hfill
    have hst : y.status = "warn" := by
      rw [(mkItemResult_ok hfy).1, validateItem_fill,
        validateItem_warn_of_missing it hpne hsize hconf]
    have hmem : applyMark (detect_conflicts
        ((batch.items.map (fillEntityId now)).map
          (fun it => ⟨it.entity_type, it.entity_id, it.payload⟩))) y ∈
        (assembleOut batch (batch.items.map (fillEntityId now)) rs).results := by
      rw [assembleOut_results]
      exact List.mem_map_of_mem _ hy
    set m := detect_conflicts ((batch.items.map (fillEntityId now)).map
      (fun it => ⟨it.entity_type, it.entity_id, it.payload⟩)) with hmdef
    have hcases : (applyMark m y).status = "warn" ∨ (applyMark m y).status = "block" := by
      rcases applyMark_status_eq m y with h1 | h1 | h1
      · exact Or.inl (h1.trans hst)
      · exact Or.inr h1
      · exact Or.inl h1.1
    have hspec := overall_spec
      ((assembleOut batch (batch.items.map (fillEntityId now)) rs).results)
    rw [← assembleOut_overall] at hspec
    rcases hcases with hcw | hcb
    · constructor
      · intro hacc
        by_cases hblk : ∃ r ∈ (assembleOut batch (batch.items.map (fillEntityId now)) rs).results,
            r.status = "block"
        · have := (hspec.1).mpr hblk
          rw [hacc] at this
          exact absurd this (by decide)
        · have hov := (hspec.2.1 hblk).mpr ⟨_, hmem, hcw⟩
          rw [hacc] at hov
          exact absurd hov (by decide)
      · intro hblk
        exact (hspec.2.1 hblk).mpr ⟨_, hmem, hcw⟩
    · constructor
      · intro hacc
        have := (hspec.1).mpr ⟨_, hmem, hcb⟩
        rw [hacc] at this
        exact absurd this (by decide)
      · intro hblk
        exact absurd ⟨_, hmem, hcb⟩ hblk

/-- Witness for C10: the concrete valid-but-confidence-less item `c10Item` in
a non-dry-run batch. -/
theorem c10_witness :
    validateItem c10Item = ("warn", "confidence missing; set to None") ∧
    (∃ out, ingestModel c10Batch 0 = .ok out ∧ out.overall ≠ "accepted") := by
  constructor
  · exact c10_missing_confidence.1 c10Item (by decide) (by decide) rfl
  · obtain ⟨out, hout⟩ : ∃ out, ingestModel c10Batch 0 = .ok out := ⟨_, rfl⟩
    exact ⟨out, hout, (c10_missing_confidence.2.2 c10Batch 0 out hout
      ⟨c10Item, by simp [c10Batch], by decide, by decide, rfl⟩).1⟩

lemma dcStep_not_ok {st : DCState} {it : CItem} (h : ¬ okKindB it = true) :
    dcStep st it = st := by
  unfold dcStep
  rw [if_neg h]

lemma dcStep_ok {st : DCState} {it : CItem} (h : okKindB it = true) :
    dcStep st it = dcName (dcProv st it) it := by
  unfold dcStep
  rw [if_pos h]

lemma dcProv_byN (st : DCState) (it : CItem) : (dcProv st it).byN = st.byN := by
  simp only [dcProv]
  split
  · split
    · split <;> rfl
    · rfl
  · rfl

lemma lookup_after_setSame {m : List (Option String × String)} {x e : Option String}
    {t : String} (h : mapLookup m x = some t) : mapLookup (mapSet m e t) x = some t := by
  by_cases hx : x = e
  · subst hx
    rw [mapLookup_set_self]
  · rw [mapLookup_set_ne _ _ _ _ (fun he => hx he.symm)]
    exact h

lemma DCInv_dcProv (L : List CItem) (st : DCState) (it : CItem)
    (hok : okKindB it = true) (hinv : DCInv L st) : DCInv (L ++ [it]) (dcProv st it) := by
  obtain ⟨h1, h2, h3⟩ := hinv
  have hmemit : it ∈ L ++ [it] := List.mem_append_right _ (by simp)
  by_cases hpr : (pairOfC it).1 ≠ "" ∧ (pairOfC it).2 ≠ ""
  · cases hlp : mapLookup st.byP (pairOfC it) with
    | none =>
        rw [dcProv_fresh st it hpr hlp]
        refine ⟨?_, ?_, ?_⟩
        · intro p e hp
          dsimp only at hp
          by_cases hpp : p = pairOfC it
          · subst hpp
            rw [mapLookup_set_self] at hp
            exact ⟨it, hmemit, hok, rfl, hpr.1, hpr.2, (Option.some.inj hp)⟩
          · rw [mapLookup_set_ne _ _ _ _ (fun h => hpp h.symm)] at hp
            obtain ⟨c, hc, rest⟩ := h1 p e hp
            exact ⟨c, List.mem_append_left _ hc, rest⟩
        · intro c hc hokc hp1 hp2
          dsimp only
          rcases List.mem_append.mp hc with hcL | hcit
          · obtain ⟨e, hle, hdisj⟩ := h2 c hcL hokc hp1 hp2
            by_cases hpc : pairOfC c = pairOfC it
            · rw [hpc, hlp] at hle
              exact absurd hle (by simp)
            · refine ⟨e, ?_, hdisj⟩
              rw [mapLookup_set_ne _ _ _ _ (fun h => hpc h.symm)]
              exact hle
          · have hceq : c = it := by simpa using hcit
            subst hceq
            exact ⟨c.entity_id, by rw [mapLookup_set_self], Or.inl rfl⟩
        · intro k e hk
          obtain ⟨c, hc, rest⟩ := h3 k e hk
          exact ⟨c, List.mem_append_left _ hc, rest⟩
    | some e' =>
        by_cases he : e' = it.entity_id
        · rw [dcProv_same st it e' hpr hlp he]
          refine ⟨?_, ?_, ?_⟩
          · intro p e hp
            dsimp only at hp
            by_cases hpp : p = pairOfC it
            · subst hpp
              rw [mapLookup_set_self] at hp
              exact ⟨it, hmemit, hok, rfl, hpr.1, hpr.2, (Option.some.inj hp)⟩
            · rw [mapLookup_set_ne _ _ _ _ (fun h => hpp h.symm)] at hp
              obtain ⟨c, hc, rest⟩ := h1 p e hp
              exact ⟨c, List.mem_append_left _ hc, rest⟩
          · intro c hc hokc hp1 hp2
            dsimp only
            rcases List.mem_append.mp hc with hcL | hcit
            · obtain ⟨e, hle, hdisj⟩ := h2 c hcL hokc hp1 hp2
              by_cases hpc : pairOfC c = pairOfC it
              · have hee : e' = e := by
                  rw [hpc, hlp] at hle
                  exact Option.some.inj hle
                refine ⟨it.entity_id, ?_, ?_⟩
                · rw [hpc, mapLookup_set_self]
                · rcases hdisj with hl | hr
                  · left
                    rw [← hl, ← hee, he]
                  · right
                    rw [← he, hee]
                    exact hr
              · refine ⟨e, ?_, hdisj⟩
                rw [mapLookup_set_ne _ _ _ _ (fun h => hpc h.symm)]
                exact hle
            · have hceq : c = it := by simpa using hcit
              subst hceq
              exact ⟨c.entity_id, by rw [mapLookup_set_self], Or.inl rfl⟩
          · intro k e hk
            obtain ⟨c, hc, rest⟩ := h3 k e hk
            exact ⟨c, List.mem_append_left _ hc, rest⟩
        · rw [dcProv_conflict st it e' hpr hlp he]
          have hmono : ∀ x, mapLookup st.marks x = some "block:provider_id_conflict" →
              mapLookup (mapSet (mapSet st.marks it.entity_id "block:provider_id_conflict")
                e' "block:provider_id_conflict") x = some "block:provider_id_conflict" :=
            fun x hx => lookup_after_setSame (lookup_after_setSame hx)
          have hmarkIt : mapLookup (mapSet (mapSet st.marks it.entity_id
              "block:provider_id_conflict") e' "block:provider_id_conflict") it.entity_id =
              some "block:provider_id_conflict" :=
            lookup_after_setSame (mapLookup_set_self _ _ _)
          have hmarkE : mapLookup (mapSet (mapSet st.marks it.entity_id
              "block:provider_id_conflict") e' "block:provider_id_conflict") e' =
              some "block:provider_id_conflict" := mapLookup_set_self _ _ _
          refine ⟨?_, ?_, ?_⟩
          · intro p e hp
            obtain ⟨c, hc, rest⟩ := h1 p e hp
            exact ⟨c, List.mem_append_left _ hc, rest⟩
          · intro c hc hokc hp1 hp2
            dsimp only
            rcases List.mem_append.mp hc with hcL | hcit
            · obtain ⟨e, hle, hdisj⟩ := h2 c hcL hokc hp1 hp2
              refine ⟨e, hle, ?_⟩
              rcases hdisj with hl | ⟨hm1, hm2⟩
              · exact Or.inl hl
              · exact Or.inr ⟨hmono _ hm1, hmono _ hm2⟩
            · have hceq : c = it := by simpa using hcit
              subst hceq
              exact ⟨e', hlp, Or.inr ⟨hmarkIt, hmarkE⟩⟩
          · intro k e hk
            obtain ⟨c, hc, rest⟩ := h3 k e hk
            exact ⟨c, List.mem_append_left _ hc, rest⟩
  · rw [dcProv_skip st it hpr]
    refine ⟨?_, ?_, ?_⟩
    · intro p e hp
      obtain ⟨c, hc, rest⟩ := h1 p e hp
      exact ⟨c, List.mem_append_left _ hc, rest⟩
    · intro c hc hokc hp1 hp2
      rcases List.mem_append.mp hc with hcL | hcit
      · exact h2 c hcL hokc hp1 hp2
      · have hceq : c = it := by simpa using hcit
        subst hceq
        exact absurd ⟨hp1, hp2⟩ hpr
    · intro k e hk
      obtain ⟨c, hc, rest⟩ := h3 k e hk
      exact ⟨c, List.mem_append_left _ hc, rest⟩

lemma DCInv_dcName (full : List CItem) (hnw : NoWarnDup full)
    (L' : List CItem) (st1 : DCState) (it : CItem)
    (hL'f : ∀ x ∈ L', x ∈ full) (hitf : it ∈ full) (hitL : it ∈ L')
    (hokit : okKindB it = true) (hinv : DCInv L' st1) : DCInv L' (dcName st1 it) := by
  obtain ⟨h1, h2, h3⟩ := hinv
  by_cases hkey : (keyOfC it).1 ≠ "" ∧ (keyOfC it).2 ≠ ""
  · have hset : DCInv L' ⟨st1.byP, mapSet st1.byN (keyOfC it) it.entity_id, st1.marks⟩ := by
      refine ⟨h1, h2, ?_⟩
      intro k e hk
      dsimp only at hk
      by_cases hkk : k = keyOfC it
      · subst hkk
        rw [mapLookup_set_self] at hk
        exact ⟨it, hitL, hokit, rfl, hkey.1, hkey.2, (Option.some.inj hk)⟩
      · rw [mapLookup_set_ne _ _ _ _ (fun h => hkk h.symm)] at hk
        exact h3 k e hk
    cases hln : mapLookup st1.byN (keyOfC it) with
    | none =>
        rw [dcName_fresh st1 it hkey hln]
        exact hset
    | some e2 =>
        obtain ⟨c, hc, hokc, hkc, _, _, hce⟩ := h3 _ _ hln
        have heq : c.entity_id = it.entity_id := by
          refine hnw c (hL'f c hc) it hitf hokc hokit hkc ?_ ?_
          · rw [hkc]
            exact hkey.1
          · rw [hkc]
            exact hkey.2
        have he2 : e2 = it.entity_id := by rw [← hce, heq]
        rw [dcName_same st1 it e2 hkey hln he2]
        exact hset
  · rw [dcName_skip st1 it hkey]
    exact ⟨h1, h2, h3⟩

lemma DCInv_step (full : List CItem) (hnw : NoWarnDup full)
    (L : List CItem) (st : DCState) (it : CItem)
    (hLf : ∀ x ∈ L, x ∈ full) (hitf : it ∈ full) (hinv : DCInv L st) :
    DCInv (L ++ [it]) (dcStep st it) := by
  by_cases hok : okKindB it = true
  · rw [dcStep_ok hok]
    refine DCInv_dcName full hnw (L ++ [it]) (dcProv st it) it ?_ hitf
      (List.mem_append_right _ (by simp)) hok (DCInv_dcProv L st it hok hinv)
    intro x hx
    rcases List.mem_append.mp hx with hxL | hxit
    · exact hLf x hxL
    · have : x = it := by simpa using hxit
      subst this
      exact hitf
  · rw [dcStep_not_ok hok]
    obtain ⟨h1, h2, h3⟩ := hinv
    refine ⟨?_, ?_, ?_⟩
    · intro p e hp
      obtain ⟨c, hc, rest⟩ := h1 p e hp
      exact ⟨c, List.mem_append_left _ hc, rest⟩
    · intro c hc hokc hp1 hp2
      rcases List.mem_append.mp hc with hcL | hcit
      · exact h2 c hcL hokc hp1 hp2
      · have hceq : c = it := by simpa using hcit
        subst hceq
        exact absurd hokc hok
    · intro k e hk
      obtain ⟨c, hc, rest⟩ := h3 k e hk
      exact ⟨c, List.mem_append_left _ hc, rest⟩

lemma DCInv_run (full : List CItem) (hnw : NoWarnDup full) :
    ∀ (rest L : List CItem) (st : DCState), (∀ x ∈ L, x ∈ full) → (∀ x ∈ rest, x ∈ full) →
      DCInv L st → DCInv (L ++ rest) (rest.foldl dcStep st) := by
  intro rest
  induction rest with
  | nil =>
      intro L st hLf _ hinv
      simpa using hinv
  | cons a t ih =>
      intro L st hLf hrf hinv
      have hstep := DCInv_step full hnw L st a hLf (hrf a (by simp)) hinv
      have hrec := ih (L ++ [a]) (dcStep st a)
        (by
          intro x hx
          rcases List.mem_append.mp hx with hxL | hxa
          · exact hLf x hxL
          · have hxa' : x = a := by simpa using hxa
            rw [hxa']
            exact hrf a (by simp))
        (fun x hx => hrf x (by simp [hx])) hstep
      simpa [List.append_assoc] using hrec

/-- C4 counterexample: two coach items share `(provider, provider_id)` with
different entity ids, but they also share `(name, birth_date)`, so the final
map carries `warn:possible_duplicate` — not the claimed block mark — for both. -/
theorem c4_counterexample :
    ¬ mapLookup (detect_conflicts [c4CoachA, c4CoachB]) (some "coach_a") =
      some "block:provider_id_conflict" ∧
    mapLookup (detect_conflicts [c4CoachA, c4CoachB]) (some "coach_a") =
      some "warn:possible_duplicate" := by decide

/-- C4 (amended): whenever two conflict-eligible items of a batch carry the
same non-empty `(provider, provider_id)` pair with different entity ids, and
no `(name, birth_date)` duplicate fires in the batch (which would overwrite
marks with `warn:possible_duplicate`), the returned map carries
`block:provider_id_conflict` for BOTH entity ids — the marking is symmetric. -/
theorem c4_provider_conflict_blocks_both :
    ∀ (items : List CItem) (a b : CItem), a ∈ items → b ∈ items →
      okKindB a = true → okKindB b = true → pairOfC a = pairOfC b →
      (pairOfC a).1 ≠ "" → (pairOfC a).2 ≠ "" → a.entity_id ≠ b.entity_id →
      NoWarnDup items →
      mapLookup (detect_conflicts items) a.entity_id = some "block:provider_id_conflict" ∧
      mapLookup (detect_conflicts items) b.entity_id = some "block:provider_id_conflict" := by
  intro items a b ha hb hoka hokb hpq hp1 hp2 hne hnw
  have hinit : DCInv [] ⟨[], [], []⟩ := by
    refine ⟨?_, ?_, ?_⟩
    · intro p e hp
      simp [mapLookup] at hp
    · intro c hc
      simp at hc
    · intro k e hk
      simp [mapLookup] at hk
  have hrun := DCInv_run items hnw items [] ⟨[], [], []⟩ (by simp) (fun x hx => hx) hinit
  rw [List.nil_append] at hrun
  obtain ⟨h1, h2, h3⟩ := hrun
  unfold detect_conflicts
  obtain ⟨e, hle, hda⟩ := h2 a ha hoka hp1 hp2
  obtain ⟨e2, hle2, hdb⟩ := h2 b hb hokb (by rw [← hpq]; exact hp1) (by rw [← hpq]; exact hp2)
  have hee : e2 = e := by
    rw [← hpq, hle] at hle2
    exact (Option.some.inj hle2).symm
  subst hee
  by_cases hea : e2 = a.entity_id
  · have heb : ¬ e2 = b.entity_id := by
      rw [hea]
      exact hne
    rcases hdb with hl | ⟨hmb, hme⟩
    · exact absurd hl heb
    · constructor
      · rw [← hea]
        exact hme
      · exact hmb
  · rcases hda with hl | ⟨hma, hmea⟩
    · exact absurd hl hea
    · refine ⟨hma, ?_⟩
      rcases hdb with hlb | ⟨hmb, _⟩
      · rw [← hlb]
        exact hmea
      · exact hmb

/-- Witness for C4: the spec's `statsco`/`p1` example with client entity ids
`plr_a` and `plr_b` — both carry the block mark. -/
theorem c4_witness :
    mapLookup (detect_conflicts [c4PlrA, c4PlrB]) (some "plr_a") =
      some "block:provider_id_conflict" ∧
    mapLookup (detect_conflicts [c4PlrA, c4PlrB]) (some "plr_b") =
      some "block:provider_id_conflict" :=
  c4_provider_conflict_blocks_both [c4PlrA, c4PlrB] c4PlrA c4PlrB (by decide) (by decide)
    (by decide) (by decide) (by decide) (by decide) (by decide) (by decide)
    (by
      intro x hx y hy hokx hoky hk hk1 hk2
      exfalso
      apply hk1
      rcases List.mem_cons.mp hx with h | h
      · rw [h]
        decide
      · rcases List.mem_cons.mp h with h2 | h2
        · rw [h2]
          decide
        · simp at h2)

lemma clamp01R_nonneg (x : ℝ) : 0 ≤ clamp01R x := by
  unfold clamp01R
  split_ifs <;> linarith

lemma clamp01R_le_one (x : ℝ) : clamp01R x ≤ 1 := by
  unfold clamp01R
  split_ifs <;> linarith

lemma clamp01Q_nonneg (x : ℚ) : 0 ≤ Importance.clamp01 x := by
  unfold Importance.clamp01
  split_ifs <;> linarith

lemma clamp01Q_le_one (x : ℚ) : Importance.clamp01 x ≤ 1 := by
  unfold Importance.clamp01
  split_ifs <;> linarith

lemma f_schedule_density_score {p : Payload} {r : FactorResult}
    (h : f_schedule_density p = .ok r) : 0 ≤ r.score ∧ r.score ≤ 1 := by
  unfold f_schedule_density at h
  cases h1 : pyFloatE (getVD p "games_7d" (.vInt 0)) with
  | error e =>
      rw [h1] at h
      simp at h
  | ok games =>
      rw [h1] at h
      cases h2 : pyFloatE (getVD p "avg_rest_day" (.vInt 4)) with
      | error e =>
          rw [h2] at h
          simp at h
      | ok rest =>
          rw [h2] at h
          dsimp only at h
          injection h with h
          subst h
          exact ⟨clamp01R_nonneg _, clamp01R_le_one _⟩

lemma f_season_phase_score {p : Payload} {r : FactorResult}
    (h : f_season_phase p = .ok r) : 0 ≤ r.score ∧ r.score ≤ 1 := by
  unfold f_season_phase at h
  cases h1 : pyLowerE (pyOrV (getV p "phase") (.vStr "mid")) with
  | error e =>
      rw [h1] at h
      simp at h
  | ok phase =>
      rw [h1] at h
      dsimp only at h
      injection h with h
      subst h
      dsimp only
      split_ifs <;> norm_num

lemma f_injuries_score {p : Payload} {r : FactorResult}
    (h : f_injuries p = .ok r) : 0 ≤ r.score ∧ r.score ≤ 1 := by
  unfold f_injuries at h
  cases h1 : pyIntE (getVD p "key_absent" (.vInt 0)) with
  | error e =>
      rw [h1] at h
      simp at h
  | ok key_out =>
      rw [h1] at h
      cases h2 : pyIntE (getVD p "total_absent" (.vInt 0)) with
      | error e =>
          rw [h2] at h
          simp at h
      | ok total_out =>
          rw [h2] at h
          injection h with h
          subst h
          exact ⟨clamp01R_nonneg _, clamp01R_le_one _⟩

lemma f_referee_score {p : Payload} {r : FactorResult}
    (h : f_referee p = .ok r) : 0 ≤ r.score ∧ r.score ≤ 1 := by
  unfold f_referee at h
  cases h1 : pyFloatE (getVD p "red_rate" (.vFloat 0)) with
  | error e =>
      rw [h1] at h
      simp at h
  | ok red =>
      rw [h1] at h
      cases h2 : pyFloatE (getVD p "penalty_rate" (.vFloat 0)) with
      | error e =>
          rw [h2] at h
          simp at h
      | ok pen =>
          rw [h2] at h
          dsimp only at h
          injection h with h
          subst h
          exact ⟨clamp01R_nonneg _, clamp01R_le_one _⟩

lemma f_media_score {p : Payload} {r : FactorResult}
    (h : f_media p = .ok r) : 0 ≤ r.score ∧ r.score ≤ 1 := by
  unfold f_media at h
  cases h1 : pyFloatE (getVD p "hype_score" (.vFloat 0)) with
  | error e =>
      rw [h1] at h
      simp at h
  | ok hype =>
      rw [h1] at h
      dsimp only at h
      injection h with h
      subst h
      exact ⟨clamp01R_nonneg _, clamp01R_le_one _⟩

lemma f_rivalry_score {p : Payload} {r : FactorResult}
    (h : f_rivalry p = .ok r) : 0 ≤ r.score ∧ r.score ≤ 1 := by
  unfold f_rivalry at h
  cases h1 : pyFloatE (getVD p "derby_strength" (.vFloat 0)) with
  | error e =>
      rw [h1] at h
      simp at h
  | ok hist =>
      rw [h1] at h
      cases h2 : pyFloatE (getVD p "recent_tension" (.vFloat 0)) with
      | error e =>
          rw [h2] at h
          simp at h
      | ok recent =>
          rw [h2] at h
          injection h with h
          subst h
          exact ⟨clamp01R_nonneg _, clamp01R_le_one _⟩

lemma f_social_score {p : Payload} {r : FactorResult}
    (h : f_social p = .ok r) : 0 ≤ r.score ∧ r.score ≤ 1 := by
  unfold f_social at h
  cases h1 : pyIntE (getVD p "S" (.vInt 0)) with
  | error e =>
      rw [h1] at h
      simp at h
  | ok s =>
      rw [h1] at h
      injection h with h
      subst h
      exact ⟨clamp01R_nonneg _, clamp01R_le_one _⟩

lemma score_player_bounds {p : Payload} {s : ℚ}
    (h : Importance.score_player p = .ok s) : 0 ≤ s ∧ s ≤ 1 := by
  unfold Importance.score_player at h
  cases h1 : pyUpperE (pyOrV (getV p "position") (.vStr "")) with
  | error e =>
      rw [h1] at h
      simp at h
  | ok pos =>
      rw [h1] at h
      dsimp only at h
      injection h with h
      subst h
      exact ⟨clamp01Q_nonneg _, clamp01Q_le_one _⟩

lemma importance_score_bounds {et : String} {p : Payload}
    {res : Importance.ImportanceResult} (h : Importance.score et p = .ok res) :
    0 ≤ res.score ∧ res.score ≤ 1 := by
  unfold Importance.score at h
  by_cases hp : lowerS et = "player"
  · rw [if_pos hp] at h
    cases hs : Importance.score_player p with
    | error e =>
        rw [hs] at h
        simp at h
    | ok s =>
        rw [hs] at h
        injection h with h
        subst h
        exact score_player_bounds hs
  · rw [if_neg hp] at h
    injection h with h
    subst h
    dsimp only
    split_ifs
    · exact ⟨clamp01Q_nonneg _, clamp01Q_le_one _⟩
    · exact ⟨clamp01Q_nonneg _, clamp01Q_le_one _⟩
    · exact ⟨clamp01Q_nonneg _, clamp01Q_le_one _⟩
    · norm_num

lemma factor_funcs_score_bounds :
    ∀ fn ∈ FACTOR_FUNCS, ∀ (p : Payload) (r : FactorResult), fn p = .ok r →
      0 ≤ r.score ∧ r.score ≤ 1 := by
  intro fn hfn p r h
  simp only [FACTOR_FUNCS, List.mem_cons, List.not_mem_nil, or_false] at hfn
  rcases hfn with h1 | h1 | h1 | h1 | h1 | h1 | h1
  · subst h1
    exact f_schedule_density_score h
  · subst h1
    exact f_season_phase_score h
  · subst h1
    exact f_injuries_score h
  · subst h1
    exact f_referee_score h
  · subst h1
    exact f_media_score h
  · subst h1
    exact f_rivalry_score h
  · subst h1
    exact f_social_score h

/-- C6 (amended): whenever a factor evaluator returns — i.e. its `float`/`int`
coercions succeed, as they do on any payload whose relevant fields are
numeric, boolean or absent — its score lies in `[0, 1]`; and whenever the
importance scorer returns, its score lies in `[0, 1]`. -/
theorem c6_scores_in_unit_interval :
    (∀ fn ∈ FACTOR_FUNCS, ∀ (p : Payload) (r : FactorResult), fn p = .ok r →
      0 ≤ r.score ∧ r.score ≤ 1) ∧
    (∀ (et : String) (p : Payload) (res : Importance.ImportanceResult),
      Importance.score et p = .ok res → 0 ≤ res.score ∧ res.score ≤ 1) :=
  ⟨factor_funcs_score_bounds, fun _ _ _ h => importance_score_bounds h⟩

/-- C6 counterexample: the evaluators are not total on arbitrary key-value
maps — a non-numeric `games_7d` string makes `float()` raise inside
`f_schedule_density`, and a truthy non-string `position` makes `.upper()`
raise inside the player importance scorer, so no score is returned at all. -/
theorem c6_counterexample :
    f_schedule_density c6BadFactorPayload =
      .error "ValueError: could not convert string to float" ∧
    Importance.score "player" c6BadImportancePayload =
      .error "AttributeError: object has no attribute upper" :=
  ⟨rfl, rfl⟩

/-- Witness for C6: the empty payload (all defaults) for a factor evaluator
and for the importance scorer. -/
theorem c6_witness :
    (∃ r, f_schedule_density ([] : Payload) = .ok r ∧ 0 ≤ r.score ∧ r.score ≤ 1) ∧
    (∃ res, Importance.score "player" ([] : Payload) = .ok res ∧
      0 ≤ res.score ∧ res.score ≤ 1) := by
  constructor
  · obtain ⟨r, hr⟩ : ∃ r, f_schedule_density ([] : Payload) = .ok r := ⟨_, rfl⟩
    exact ⟨r, hr, c6_scores_in_unit_interval.1 f_schedule_density
      (by simp [FACTOR_FUNCS]) [] r hr⟩
  · obtain ⟨res, hres⟩ : ∃ res, Importance.score "player" ([] : Payload) = .ok res := ⟨_, rfl⟩
    exact ⟨res, hres, c6_scores_in_unit_interval.2 "player" [] res hres⟩

lemma impact_mapping_ge (name : String) (s : ℝ) (h0 : 0 ≤ s) (h1 : s ≤ 1) :
    4 / 5 ≤ (impact_mapping name s).1 ∧ 4 / 5 ≤ (impact_mapping name s).2 := by
  unfold impact_mapping
  split_ifs <;>
    exact ⟨by dsimp only; nlinarith, by dsimp only; nlinarith⟩

lemma efStep_ok {context : Payload} {acc : List FItem × ℝ × ℝ}
    {fn : Payload → Except String FactorResult} {acc2 : List FItem × ℝ × ℝ}
    (h : efStep context acc fn = .ok acc2) :
    ∃ r, fn context = .ok r ∧
      acc2 = (acc.1 ++ [⟨r.name, r.score, r.explain, (impact_mapping r.name r.score).1,
          (impact_mapping r.name r.score).2⟩],
        acc.2.1 * (impact_mapping r.name r.score).1,
        acc.2.2 * (impact_mapping r.name r.score).2) := by
  unfold efStep at h
  cases hr : fn context with
  | error e =>
      rw [hr] at h
      simp at h
  | ok r =>
      rw [hr] at h
      dsimp only at h
      injection h with h
      exact ⟨r, rfl, h.symm⟩

lemma efFold_bounds (context : Payload) :
    ∀ (fns : List (Payload → Except String FactorResult)),
      (∀ fn ∈ fns, ∀ (p : Payload) (r : FactorResult), fn p = .ok r →
        0 ≤ r.score ∧ r.score ≤ 1) →
      ∀ (acc out : List FItem × ℝ × ℝ), efFold context fns acc = .ok out →
      0 < acc.2.1 → 0 < acc.2.2 →
      acc.2.1 * (4 / 5) ^ fns.length ≤ out.2.1 ∧
      acc.2.2 * (4 / 5) ^ fns.length ≤ out.2.2 := by
  intro fns
  induction fns with
  | nil =>
      intro _ acc out h hp1 hp2
      unfold efFold at h
      injection h with h
      subst h
      simp
  | cons fn t ih =>
      intro hfns acc out h hp1 hp2
      unfold efFold at h
      cases hs : efStep context acc fn with
      | error e =>
          rw [hs] at h
          simp at h
      | ok acc2 =>
          rw [hs] at h
          obtain ⟨r, hr, hacc2⟩ := efStep_ok hs
          have hscore := hfns fn (by simp) context r hr
          have himp := impact_mapping_ge r.name r.score hscore.1 hscore.2
          have hem : (0:ℝ) < (impact_mapping r.name r.score).1 := by linarith [himp.1]
          have hwm : (0:ℝ) < (impact_mapping r.name r.score).2 := by linarith [himp.2]
          have hpos1 : 0 < acc2.2.1 := by
            rw [hacc2]
            exact mul_pos hp1 hem
          have hpos2 : 0 < acc2.2.2 := by
            rw [hacc2]
            exact mul_pos hp2 hwm
          have hrec := ih (fun g hg => hfns g (by simp [hg])) acc2 out h hpos1 hpos2
          have hstep1 : acc.2.1 * (4 / 5) ≤ acc2.2.1 := by
            rw [hacc2]
            dsimp only
            nlinarith [himp.1]
          have hstep2 : acc.2.2 * (4 / 5) ≤ acc2.2.2 := by
            rw [hacc2]
            dsimp only
            nlinarith [himp.2]
          constructor
          · calc acc.2.1 * (4 / 5) ^ (fn :: t).length
                = (acc.2.1 * (4 / 5)) * (4 / 5) ^ t.length := by
                  rw [List.length_cons]
                  ring
              _ ≤ acc2.2.1 * (4 / 5) ^ t.length := by
                  apply mul_le_mul_of_nonneg_right hstep1 (by positivity)
              _ ≤ out.2.1 := hrec.1
          · calc acc.2.2 * (4 / 5) ^ (fn :: t).length
                = (acc.2.2 * (4 / 5)) * (4 / 5) ^ t.length := by
                  rw [List.length_cons]
                  ring
              _ ≤ acc2.2.2 * (4 / 5) ^ t.length := by
                  apply mul_le_mul_of_nonneg_right hstep2 (by positivity)
              _ ≤ out.2.2 := hrec.2

lemma roundHE_bounds (x : ℝ) : x - 1 ≤ (roundHE x : ℝ) ∧ (roundHE x : ℝ) ≤ x + 1 := by
  unfold roundHE
  have hf := Int.floor_le x
  have hc := Int.lt_floor_add_one x
  split_ifs <;> constructor <;> push_cast <;> linarith

lemma roundR_bounds (n : ℕ) (x : ℝ) :
    x - 1 / 10 ^ n ≤ roundR n x ∧ roundR n x ≤ x + 1 / 10 ^ n := by
  unfold roundR
  obtain ⟨h1, h2⟩ := roundHE_bounds (x * 10 ^ n)
  have hp : (0:ℝ) < 10 ^ n := by positivity
  have hinv : (1 / 10 ^ n : ℝ) * 10 ^ n = 1 := by field_simp
  constructor
  · rw [le_div_iff₀ hp]
    nlinarith
  · rw [div_le_iff₀ hp]
    nlinarith

lemma evaluate_factors_agg_bounds {p : Payload} {out : EvalOut}
    (h : evaluate_factors p = .ok out) :
    ((4 / 5 : ℝ) ^ 7 - 1 / 10000) ≤ out.aggError ∧
    ((4 / 5 : ℝ) ^ 7 - 1 / 10000) ≤ out.aggWeight := by
  unfold evaluate_factors at h
  cases hf : efFold p FACTOR_FUNCS ([], 1, 1) with
  | error e =>
      rw [hf] at h
      simp at h
  | ok acc =>
      rw [hf] at h
      injection h with h
      subst h
      have hb := efFold_bounds p FACTOR_FUNCS factor_funcs_score_bounds ([], 1, 1) acc hf
        (by norm_num) (by norm_num)
      have hlen : FACTOR_FUNCS.length = 7 := rfl
      rw [hlen] at hb
      dsimp only at hb
      rw [one_mul] at hb
      constructor
      · have hr := (roundR_bounds 4 acc.2.1).1
        dsimp only
        have : (1:ℝ) / 10 ^ 4 = 1 / 10000 := by norm_num
        nlinarith [hb.1]
      · have hr := (roundR_bounds 4 acc.2.2).1
        dsimp only
        have : (1:ℝ) / 10 ^ 4 = 1 / 10000 := by norm_num
        nlinarith [hb.2]

lemma causal_snapshot_pos {factors : EvalOut} {payload : Payload} {p0 : ℝ}
    (hE : ((4 / 5 : ℝ) ^ 7 - 1 / 10000) ≤ factors.aggError)
    (hW : ((4 / 5 : ℝ) ^ 7 - 1 / 10000) ≤ factors.aggWeight) :
    0 < (causal_snapshot factors payload p0).error_mul ∧
    0 < (causal_snapshot factors payload p0).weight_mul := by
  unfold causal_snapshot
  cases hlk : mapLookup payload "odds_deviation" with
  | none =>
      dsimp only
      constructor
      · have hr := (roundR_bounds 4 factors.aggError).1
        nlinarith
      · have hr := (roundR_bounds 4 factors.aggWeight).1
        nlinarith
  | some v =>
      dsimp only
      cases hpf : pyFloatE v with
      | error e =>
          dsimp only
          constructor
          · have hr := (roundR_bounds 4 factors.aggError).1
            nlinarith
          · have hr := (roundR_bounds 4 factors.aggWeight).1
            nlinarith
      | ok uq =>
          dsimp only
          have hu : (0:ℝ) ≤ ((max 0 (min 1 uq) : ℚ) : ℝ) := by
            exact_mod_cast le_max_left 0 (min 1 uq)
          constructor
          · have hr := (roundR_bounds 4 (factors.aggError *
              (1 + 0.08 * ((max 0 (min 1 uq) : ℚ) : ℝ)))).1
            nlinarith
          · have hr := (roundR_bounds 4 (factors.aggWeight *
              (1 + 0.40 * ((max 0 (min 1 uq) : ℚ) : ℝ)))).1
            nlinarith

/-- C7: for every factor name and score in `[0, 1]`, `impact_mapping` returns
strictly positive multipliers; consequently, the aggregate `error_mul` and
`weight_mul` produced by `evaluate_factors`, and by `causal_snapshot` on its
output (upset-index factor included), are strictly positive. -/
theorem c7_multipliers_positive :
    (∀ (name : String) (s : ℝ), 0 ≤ s → s ≤ 1 →
      0 < (impact_mapping name s).1 ∧ 0 < (impact_mapping name s).2) ∧
    (∀ (p : Payload) (out : EvalOut), evaluate_factors p = .ok out →
      0 < out.aggError ∧ 0 < out.aggWeight) ∧
    (∀ (p q : Payload) (out : EvalOut) (p0 : ℝ), evaluate_factors p = .ok out →
      0 < (causal_snapshot out q p0).error_mul ∧
      0 < (causal_snapshot out q p0).weight_mul) := by
  refine ⟨?_, ?_, ?_⟩
  · intro name s h0 h1
    have := impact_mapping_ge name s h0 h1
    exact ⟨by linarith [this.1], by linarith [this.2]⟩
  · intro p out h
    have := evaluate_factors_agg_bounds h
    exact ⟨by nlinarith [this.1], by nlinarith [this.2]⟩
  · intro p q out p0 h
    have := evaluate_factors_agg_bounds h
    exact causal_snapshot_pos this.1 this.2

/-- Witness for C7: the injuries mapping at score one half, and the empty
payload fed through `evaluate_factors` and `causal_snapshot` with an upset
index of one half. -/
theorem c7_witness :
    (0 < (impact_mapping "injuries" (1 / 2)).1 ∧
     0 < (impact_mapping "injuries" (1 / 2)).2) ∧
    (∃ out, evaluate_factors ([] : Payload) = .ok out ∧
      (0 < out.aggError ∧ 0 < out.aggWeight) ∧
      (0 < (causal_snapshot out c7UpsetPayload 0.021).error_mul ∧
       0 < (causal_snapshot out c7UpsetPayload 0.021).weight_mul)) := by
  refine ⟨c7_multipliers_positive.1 "injuries" (1 / 2) (by norm_num) (by norm_num), ?_⟩
  obtain ⟨out, hout⟩ : ∃ out, evaluate_factors ([] : Payload) = .ok out := ⟨_, rfl⟩
  exact ⟨out, hout, c7_multipliers_positive.2.1 [] out hout,
    c7_multipliers_positive.2.2 [] c7UpsetPayload out 0.021 hout⟩

lemma clamp01R_le_self {x : ℝ} (h : 0 ≤ x) : clamp01R x ≤ x := by
  unfold clamp01R
  split_ifs <;> linarith

lemma clamp01R_ge {x b : ℝ} (hb0 : 0 ≤ b) (hb1 : b ≤ 1) (hbx : b ≤ x) : b ≤ clamp01R x := by
  unfold clamp01R
  split_ifs <;> linarith

lemma pySigmoid_bounds {x : ℝ} (hx : 0 < x) : 1 / 2 < pySigmoid x ∧ pySigmoid x < 1 := by
  unfold pySigmoid
  have h1 : 0 < Real.exp (-(4 * x)) := Real.exp_pos _
  have h2 : Real.exp (-(4 * x)) < 1 := Real.exp_lt_one_iff.mpr (by nlinarith)
  have hpos : (0:ℝ) < 1 + Real.exp (-(4 * x)) := by linarith
  constructor
  · rw [lt_div_iff₀ hpos]
    nlinarith
  · rw [div_lt_one hpos]
    linarith

lemma insertByImpact_length (a : FItem) (l : List FItem) :
    (insertByImpact a l).length = l.length + 1 := by
  induction l with
  | nil => rfl
  | cons b t ih =>
      unfold insertByImpact
      split_ifs
      · rfl
      · simp [ih]

lemma sortByImpact_length (l : List FItem) : (sortByImpact l).length = l.length := by
  induction l with
  | nil => rfl
  | cons a t ih =>
      unfold sortByImpact
      rw [insertByImpact_length, ih]
      rfl

set_option maxHeartbeats 2000000 in
lemma c3_main : ∃ F, evaluate_factors c3Payload = .ok F ∧
    (causal_snapshot F c3Payload (21/1000)).adjusted_error < 21/1000 ∧
    (causal_snapshot F c3Payload (21/1000)).drivers.length ≤ 3 := by
  have hswap : pyTruthy (getVD c3Payload "late_swap" (PyVal.vBool false)) = true := by decide
  have hscan : pyTruthy (getVD c3Payload "scandal" (PyVal.vBool false)) = false := by decide
  have htrans : pyTruthy (getVD c3Payload "transfer_hot" (PyVal.vBool false)) = false := by decide
  have hlk : mapLookup c3Payload "odds_deviation" = none := by decide
  refine ⟨_, rfl, ?_, ?_⟩
  · unfold causal_snapshot
    rw [hlk]
    dsimp only
    simp +decide only [hswap, hscan, htrans, impact_mapping]
    norm_num
    set A := clamp01R (3/2 : ℝ) with hAdef
    set B := clamp01R (7/10 * pySigmoid 2 + 3/10 * clamp01R (4/5)) with hBdef
    set C := clamp01R (19/50 : ℝ) with hCdef
    set D := clamp01R (0 : ℝ) with hDdef
    set E := clamp01R (1 : ℝ) with hEdef
    have hD : D = 0 := by
      rw [hDdef]
      exact le_antisymm (clamp01R_le_self le_rfl) (clamp01R_nonneg 0)
    have hE : E = 1 := by
      rw [hEdef]
      exact le_antisymm (clamp01R_le_one 1) (clamp01R_ge (by norm_num) (by norm_num) le_rfl)
    rw [hD, hE]
    have hσ := pySigmoid_bounds (show (0:ℝ) < 2 by norm_num)
    have hA0 : (0:ℝ) ≤ A := hAdef ▸ clamp01R_nonneg _
    have hA1 : A ≤ 1 := hAdef ▸ clamp01R_le_one _
    have hI0 : (4/5 : ℝ) ≤ clamp01R (4/5) := clamp01R_ge (by norm_num) (by norm_num) le_rfl
    have hB0 : (59/100 : ℝ) ≤ B := by
      rw [hBdef]
      exact clamp01R_ge (by norm_num) (by norm_num) (by nlinarith [hσ.1, hI0])
    have hB1 : B ≤ 1 := hBdef ▸ clamp01R_le_one _
    have hC0 : (0:ℝ) ≤ C := hCdef ▸ clamp01R_nonneg _
    have hC1 : C ≤ 19/50 := hCdef ▸ clamp01R_le_self (by norm_num)
    have e1b : (1:ℝ) ≤ 1 + 2/25 * A ∧ (1 + 2/25 * A : ℝ) ≤ 27/25 :=
      ⟨by nlinarith, by nlinarith⟩
    have e2b : (4/5:ℝ) ≤ 1 - 1/5 * B ∧ (1 - 1/5 * B : ℝ) ≤ 441/500 :=
      ⟨by nlinarith, by nlinarith⟩
    have e3b : (1:ℝ) ≤ 1 + 1/10 * C ∧ (1 + 1/10 * C : ℝ) ≤ 519/500 :=
      ⟨by nlinarith, by nlinarith⟩
    have p2u : (1 + 2/25 * A) * (1 - 1/5 * B) ≤ 27/25 * (441/500 : ℝ) :=
      mul_le_mul e1b.2 e2b.2 (by linarith [e2b.1]) (by norm_num)
    have p2l : (0:ℝ) ≤ (1 + 2/25 * A) * (1 - 1/5 * B) :=
      mul_nonneg (by linarith [e1b.1]) (by linarith [e2b.1])
    have p3u : (1 + 2/25 * A) * (1 - 1/5 * B) * (1 + 1/10 * C) ≤
        27/25 * (441/500 : ℝ) * (519/500) :=
      mul_le_mul p2u e3b.2 (by linarith [e3b.1]) (by norm_num)
    have p3l : (0:ℝ) ≤ (1 + 2/25 * A) * (1 - 1/5 * B) * (1 + 1/10 * C) :=
      mul_nonneg p2l (by linarith [e3b.1])
    have hEM : (1 + 2/25 * A) * (1 - 1/5 * B) * (1 + 1/10 * C) * (1 + 3/50 * (0:ℝ)) *
        (1 - 1/10 * (1:ℝ)) ≤ 89/100 := by nlinarith [p3u, p3l]
    have hR4 := (roundR_bounds 4 ((1 + 2/25 * A) * (1 - 1/5 * B) * (1 + 1/10 * C) *
      (1 + 3/50 * (0:ℝ)) * (1 - 1/10 * (1:ℝ)))).2
    have hR5 := (roundR_bounds 5 (21/1000 * roundR 4 ((1 + 2/25 * A) * (1 - 1/5 * B) *
      (1 + 1/10 * C) * (1 + 3/50 * (0:ℝ)) * (1 - 1/10 * (1:ℝ))))).2
    have h4 : (1:ℝ)/10^4 = 1/10000 := by norm_num
    have h5 : (1:ℝ)/10^5 = 1/100000 := by norm_num
    linarith [hR4, hR5, hEM]
  · unfold causal_snapshot
    rw [hlk]
    dsimp only
    simp [top_drivers, List.length_map, List.length_take, sortByImpact_length,
      List.length_append]

/-- Counterexample for C3: on the specified payload, composing the factor
evaluation with the causal snapshot at the default baseline 0.021 yields an
adjusted error that is NOT strictly greater than the baseline. -/
theorem c3_counterexample : ∃ F, evaluate_factors c3Payload = .ok F ∧
    ¬((causal_snapshot F c3Payload (21/1000)).adjusted_error > 21/1000) := by
  obtain ⟨F, hF, hlt, _⟩ := c3_main
  exact ⟨F, hF, not_lt.mpr (le_of_lt hlt)⟩

/-- C3 (amended): on the payload {games_7d:6, avg_rest_day:2, phase:"critical",
key_absent:2, total_absent:4, red_rate:0.3, penalty_rate:0.1, late_swap:true,
S:3}, the snapshot at the default baseline p0 = 0.021 yields an adjusted error
strictly BELOW p0 (the multipliers net below one), and the drivers list has
length at most 3. -/
theorem c3_adjusted_error_below_baseline : ∃ F, evaluate_factors c3Payload = .ok F ∧
    (causal_snapshot F c3Payload (21/1000)).adjusted_error < 21/1000 ∧
    (causal_snapshot F c3Payload (21/1000)).drivers.length ≤ 3 := c3_main

lemma manualCanon_keys (p : Payload) (ph : String) :
    (manualCanon p ph).map Prod.fst = canonicalKeys := rfl

lemma mem_manualCanon_fst (p : Payload) (ph : String) {kv : String × PyVal}
    (h : kv ∈ manualCanon p ph) : kv.1 ∈ canonicalKeys := by
  have := List.mem_map_of_mem Prod.fst h
  rwa [manualCanon_keys] at this

lemma updateAssoc_cons (p : Payload) (a : String × PyVal) (t : Payload) :
    Normalizer.updateAssoc p (a :: t) = Normalizer.updateAssoc (mapSet p a.1 a.2) t := rfl

lemma keys_mapSet_of_some {α β : Type} [DecidableEq α] :
    ∀ (m : List (α × β)) (k : α) (v w : β), mapLookup m k = some w →
      (mapSet m k v).map Prod.fst = m.map Prod.fst := by
  intro m
  induction m with
  | nil => intro k v w h; simp [mapLookup] at h
  | cons hd t ih =>
      intro k v w h
      by_cases h1 : hd.1 = k
      · simp [mapSet, h1]
      · rw [mapLookup, if_neg h1] at h
        simp [mapSet, h1, ih k v w h]

lemma lookup_updateAssoc_not_key :
    ∀ (m : List (String × PyVal)) (p : Payload) (k : String),
      (∀ kv ∈ m, kv.1 ≠ k) →
      mapLookup (Normalizer.updateAssoc p m) k = mapLookup p k := by
  intro m
  induction m with
  | nil => intro p k _; rfl
  | cons a t ih =>
      intro p k h
      rw [updateAssoc_cons, ih _ _ (fun kv hkv => h kv (List.mem_cons_of_mem _ hkv)),
        mapLookup_set_ne _ _ _ _ (h a (List.mem_cons_self _ _))]

lemma lookup_updateAssoc_mem :
    ∀ (m : List (String × PyVal)) (p : Payload) (k : String),
      (m.map Prod.fst).Nodup → (mapLookup m k).isSome = true →
      mapLookup (Normalizer.updateAssoc p m) k = mapLookup m k := by
  intro m
  induction m with
  | nil => intro p k _ hk; simp [mapLookup] at hk
  | cons a t ih =>
      intro p k hnd hk
      rw [List.map_cons, List.nodup_cons] at hnd
      rw [updateAssoc_cons]
      by_cases he : a.1 = k
      · subst he
        have hnotin : ∀ kv ∈ t, kv.1 ≠ a.1 := by
          intro kv hkv hc
          exact hnd.1 (hc ▸ List.mem_map_of_mem Prod.fst hkv)
        rw [lookup_updateAssoc_not_key _ _ _ hnotin, mapLookup_set_self]
        simp [mapLookup]
      · have hk' : (mapLookup t k).isSome = true := by
          rw [mapLookup, if_neg he] at hk
          exact hk
        rw [ih _ _ hnd.2 hk', mapLookup, if_neg he]

lemma keys_updateAssoc :
    ∀ (m : List (String × PyVal)) (p : Payload),
      (∀ kv ∈ m, (mapLookup p kv.1).isSome = true) →
      (Normalizer.updateAssoc p m).map Prod.fst = p.map Prod.fst := by
  intro m
  induction m with
  | nil => intro p _; rfl
  | cons a t ih =>
      intro p h
      obtain ⟨w, hw⟩ := Option.isSome_iff_exists.mp (h a (List.mem_cons_self _ _))
      have h' : ∀ kv ∈ t, (mapLookup (mapSet p a.1 a.2) kv.1).isSome = true := by
        intro kv hkv
        by_cases he : a.1 = kv.1
        · rw [← he, mapLookup_set_self]; rfl
        · rw [mapLookup_set_ne _ _ _ _ he]
          exact h kv (List.mem_cons_of_mem _ hkv)
      rw [updateAssoc_cons, ih _ h', keys_mapSet_of_some p a.1 a.2 w hw]

lemma lookup_none_of_keys :
    ∀ (p : Payload) (k : String),
      (p.map (fun kv => kv.1)).contains k = false → mapLookup p k = none := by
  intro p
  induction p with
  | nil => intro k _; rfl
  | cons a t ih =>
      intro k h
      simp only [List.map_cons, List.contains_cons, Bool.or_eq_false_iff] at h
      have hne : a.1 ≠ k := by
        intro hc
        rw [hc] at h
        simp at h
      rw [mapLookup, if_neg hne]
      exact ih k h.2

lemma lookup_updateAssoc_manual_not_canon (q p : Payload) (ph : String) (k : String)
    (hk : k ∉ canonicalKeys) :
    mapLookup (Normalizer.updateAssoc q (manualCanon p ph)) k = mapLookup q k := by
  apply lookup_updateAssoc_not_key
  intro kv hkv hc
  exact hk (hc ▸ mem_manualCanon_fst p ph hkv)

lemma manualCanon_nodup (p : Payload) (ph : String) :
    ((manualCanon p ph).map Prod.fst).Nodup := by
  rw [manualCanon_keys]
  decide

lemma lookup_updateAssoc_manual_mem (q p : Payload) (ph : String) (k : String)
    (hk : k ∈ canonicalKeys) :
    mapLookup (Normalizer.updateAssoc q (manualCanon p ph)) k =
      mapLookup (manualCanon p ph) k := by
  apply lookup_updateAssoc_mem _ _ _ (manualCanon_nodup p ph)
  simp only [canonicalKeys, List.mem_cons, List.not_mem_nil, or_false] at hk
  rcases hk with h|h|h|h|h|h|h|h|h|h|h|h|h|h <;> rw [h] <;> rfl

lemma coerceFloat_restep (o : Option PyVal) (x : PyVal) (d : ℚ) :
    Normalizer.coerceFloat (o.getD (PyVal.vFloat (Normalizer.coerceFloat (o.getD x) d))) d =
      Normalizer.coerceFloat (o.getD x) d := by
  cases o <;> rfl

lemma coerceInt_restep (o : Option PyVal) (x : PyVal) (d : ℤ) :
    Normalizer.coerceInt (o.getD (PyVal.vInt (Normalizer.coerceInt (o.getD x) d))) d =
      Normalizer.coerceInt (o.getD x) d := by
  cases o <;> rfl

lemma truthy_restep (o : Option PyVal) (x : PyVal) :
    Normalizer.truthy (o.getD (PyVal.vBool (Normalizer.truthy (o.getD x)))) =
      Normalizer.truthy (o.getD x) := by
  cases o <;> rfl

lemma pyLowerChar_idem (c : Char) : pyLowerChar (pyLowerChar c) = pyLowerChar c := by
  unfold pyLowerChar
  by_cases h : 65 ≤ c.toNat ∧ c.toNat ≤ 90
  · rw [if_pos h]
    have hv : (Char.ofNat (c.toNat + 32)).toNat = c.toNat + 32 := by
      have hval : Nat.isValidChar (c.toNat + 32) := Or.inl (by omega)
      unfold Char.ofNat
      rw [dif_pos hval]
      rfl
    rw [if_neg]
    rw [hv]
    omega
  · rw [if_neg h, if_neg h]

lemma lowerS_idem (s : String) : lowerS (lowerS s) = lowerS s := by
  show String.mk ((s.toList.map pyLowerChar).map pyLowerChar) = String.mk (s.toList.map pyLowerChar)
  rw [List.map_map]
  congr 1
  exact List.map_congr_left (fun c _ => pyLowerChar_idem c)

lemma lowerS_ne_empty {s : String} (h : s ≠ "") : lowerS s ≠ "" := by
  intro hc
  apply h
  have h1 : s.toList.map pyLowerChar = [] := congrArg String.toList hc
  have h2 : s.toList = [] := by
    cases hl : s.toList with
    | nil => rfl
    | cons a t => rw [hl] at h1; simp at h1
  obtain ⟨d⟩ := s
  have hd : d = [] := h2
  rw [hd]

lemma isFloatV_getV {p : Payload} {k : String} (h : isFloatV (getV p k) = true) :
    ∃ q, mapLookup p k = some (.vFloat q) := by
  unfold getV at h
  cases hl : mapLookup p k with
  | none => rw [hl] at h; simp [isFloatV] at h
  | some v =>
      rw [hl, Option.getD_some] at h
      cases v with
      | vInt n => exact absurd h (by simp [isFloatV])
      | vFloat q => exact ⟨q, rfl⟩
      | vStr t => exact absurd h (by simp [isFloatV])
      | vBool b => exact absurd h (by simp [isFloatV])
      | vNone => exact absurd h (by simp [isFloatV])

lemma isIntV_getV {p : Payload} {k : String} (h : isIntV (getV p k) = true) :
    ∃ n, mapLookup p k = some (.vInt n) := by
  unfold getV at h
  cases hl : mapLookup p k with
  | none => rw [hl] at h; simp [isIntV] at h
  | some v =>
      rw [hl, Option.getD_some] at h
      cases v with
      | vInt n => exact ⟨n, rfl⟩
      | vFloat q => exact absurd h (by simp [isIntV])
      | vStr t => exact absurd h (by simp [isIntV])
      | vBool b => exact absurd h (by simp [isIntV])
      | vNone => exact absurd h (by simp [isIntV])

lemma isStrV_getV {p : Payload} {k : String} (h : isStrV (getV p k) = true) :
    ∃ t, mapLookup p k = some (.vStr t) := by
  unfold getV at h
  cases hl : mapLookup p k with
  | none => rw [hl] at h; simp [isStrV] at h
  | some v =>
      rw [hl, Option.getD_some] at h
      cases v with
      | vInt n => exact absurd h (by simp [isStrV])
      | vFloat q => exact absurd h (by simp [isStrV])
      | vStr t => exact ⟨t, rfl⟩
      | vBool b => exact absurd h (by simp [isStrV])
      | vNone => exact absurd h (by simp [isStrV])

lemma isBoolV_getV {p : Payload} {k : String} (h : isBoolV (getV p k) = true) :
    ∃ b, mapLookup p k = some (.vBool b) := by
  unfold getV at h
  cases hl : mapLookup p k with
  | none => rw [hl] at h; simp [isBoolV] at h
  | some v =>
      rw [hl, Option.getD_some] at h
      cases v with
      | vInt n => exact absurd h (by simp [isBoolV])
      | vFloat q => exact absurd h (by simp [isBoolV])
      | vStr t => exact absurd h (by simp [isBoolV])
      | vBool b => exact ⟨b, rfl⟩
      | vNone => exact absurd h (by simp [isBoolV])

lemma from_manual_ok (p : Payload) (s : String)
    (h1 : mapLookup p "阶段" = none) (h2 : mapLookup p "phase" = some (.vStr s)) :
    Normalizer.from_manual p = .ok (manualCanon p (lowerS (if s = "" then "mid" else s))) := by
  have hph : getVD p "阶段" (getVD p "phase" (.vStr "mid")) = .vStr s := by
    rw [getVD, h1, Option.getD_none, getVD, h2, Option.getD_some]
  unfold Normalizer.from_manual
  rw [hph]
  by_cases hs : s = ""
  · subst hs
    rfl
  · have hOr : pyOrV (.vStr s) (.vStr "mid") = .vStr s := by
      simp [pyOrV, pyTruthy, hs]
    rw [hOr, if_neg hs]
    rfl

lemma normalize_manual (p : Payload)
    (hsrc : mapLookup p "source" = none)
    (haf : (p.map (fun kv => kv.1)).any (fun k => strStartsWith k "af_") = false)
    (hc1 : (p.map (fun kv => kv.1)).contains "games_last_7d" = false)
    (hc2 : (p.map (fun kv => kv.1)).contains "ref_red%" = false) :
    Normalizer.normalize p =
      match Normalizer.from_manual p with
      | .error e => .error e
      | .ok m => .ok (Normalizer.updateAssoc p m) := by
  unfold Normalizer.normalize
  rw [hsrc]
  dsimp only
  simp only [haf, hc1, hc2, Bool.or_false, ite_self]
  rw [show (decide (("" : String) = "apifootball")) = false from rfl,
    show (decide (("" : String) = "crawler")) = false from rfl]
  simp only [Bool.false_eq_true, if_false]

set_option maxHeartbeats 1000000 in
lemma manualCanon_restep (p : Payload) (ph : String) :
    manualCanon (Normalizer.updateAssoc p (manualCanon p ph)) ph = manualCanon p ph := by
  have e1 : mapLookup (Normalizer.updateAssoc p (manualCanon p ph)) "赛程近7天" =
      mapLookup p "赛程近7天" := lookup_updateAssoc_manual_not_canon p p ph _ (by decide)
  have e2 : mapLookup (Normalizer.updateAssoc p (manualCanon p ph)) "平均休息日" =
      mapLookup p "平均休息日" := lookup_updateAssoc_manual_not_canon p p ph _ (by decide)
  have e3 : mapLookup (Normalizer.updateAssoc p (manualCanon p ph)) "关键缺阵" =
      mapLookup p "关键缺阵" := lookup_updateAssoc_manual_not_canon p p ph _ (by decide)
  have e4 : mapLookup (Normalizer.updateAssoc p (manualCanon p ph)) "缺阵总数" =
      mapLookup p "缺阵总数" := lookup_updateAssoc_manual_not_canon p p ph _ (by decide)
  have e5 : mapLookup (Normalizer.updateAssoc p (manualCanon p ph)) "红牌率" =
      mapLookup p "红牌率" := lookup_updateAssoc_manual_not_canon p p ph _ (by decide)
  have e6 : mapLookup (Normalizer.updateAssoc p (manualCanon p ph)) "点球率" =
      mapLookup p "点球率" := lookup_updateAssoc_manual_not_canon p p ph _ (by decide)
  have e7 : mapLookup (Normalizer.updateAssoc p (manualCanon p ph)) "临时换裁" =
      mapLookup p "临时换裁" := lookup_updateAssoc_manual_not_canon p p ph _ (by decide)
  have e8 : mapLookup (Normalizer.updateAssoc p (manualCanon p ph)) "丑闻" =
      mapLookup p "丑闻" := lookup_updateAssoc_manual_not_canon p p ph _ (by decide)
  have e9 : mapLookup (Normalizer.updateAssoc p (manualCanon p ph)) "转会热" =
      mapLookup p "转会热" := lookup_updateAssoc_manual_not_canon p p ph _ (by decide)
  have e10 : mapLookup (Normalizer.updateAssoc p (manualCanon p ph)) "热度" =
      mapLookup p "热度" := lookup_updateAssoc_manual_not_canon p p ph _ (by decide)
  have e11 : mapLookup (Normalizer.updateAssoc p (manualCanon p ph)) "宿敌强度" =
      mapLookup p "宿敌强度" := lookup_updateAssoc_manual_not_canon p p ph _ (by decide)
  have e12 : mapLookup (Normalizer.updateAssoc p (manualCanon p ph)) "近期紧张" =
      mapLookup p "近期紧张" := lookup_updateAssoc_manual_not_canon p p ph _ (by decide)
  have e13 : mapLookup (Normalizer.updateAssoc p (manualCanon p ph)) "社会S" =
      mapLookup p "社会S" := lookup_updateAssoc_manual_not_canon p p ph _ (by decide)
  have c1 : mapLookup (Normalizer.updateAssoc p (manualCanon p ph)) "games_7d" =
      some (.vFloat (Normalizer.coerceFloat
        ((mapLookup p "赛程近7天").getD ((mapLookup p "games_7d").getD (.vInt 0))) 0)) := by
    rw [lookup_updateAssoc_manual_mem p p ph _ (by decide)]
    rfl
  have c2 : mapLookup (Normalizer.updateAssoc p (manualCanon p ph)) "avg_rest_day" =
      some (.vFloat (Normalizer.coerceFloat
        ((mapLookup p "平均休息日").getD ((mapLookup p "avg_rest_day").getD (.vInt 4))) 4)) := by
    rw [lookup_updateAssoc_manual_mem p p ph _ (by decide)]
    rfl
  have c4 : mapLookup (Normalizer.updateAssoc p (manualCanon p ph)) "key_absent" =
      some (.vInt (Normalizer.coerceInt
        ((mapLookup p "关键缺阵").getD ((mapLookup p "key_absent").getD (.vInt 0))) 0)) := by
    rw [lookup_updateAssoc_manual_mem p p ph _ (by decide)]
    rfl
  have c5 : mapLookup (Normalizer.updateAssoc p (manualCanon p ph)) "total_absent" =
      some (.vInt (Normalizer.coerceInt
        ((mapLookup p "缺阵总数").getD ((mapLookup p "total_absent").getD (.vInt 0))) 0)) := by
    rw [lookup_updateAssoc_manual_mem p p ph _ (by decide)]
    rfl
  have c6 : mapLookup (Normalizer.updateAssoc p (manualCanon p ph)) "red_rate" =
      some (.vFloat (Normalizer.coerceFloat
        ((mapLookup p "红牌率").getD ((mapLookup p "red_rate").getD (.vInt 0))) 0)) := by
    rw [lookup_updateAssoc_manual_mem p p ph _ (by decide)]
    rfl
  have c7 : mapLookup (Normalizer.updateAssoc p (manualCanon p ph)) "penalty_rate" =
      some (.vFloat (Normalizer.coerceFloat
        ((mapLookup p "点球率").getD ((mapLookup p "penalty_rate").getD (.vInt 0))) 0)) := by
    rw [lookup_updateAssoc_manual_mem p p ph _ (by decide)]
    rfl
  have c8 : mapLookup (Normalizer.updateAssoc p (manualCanon p ph)) "late_swap" =
      some (.vBool (Normalizer.truthy
        ((mapLookup p "临时换裁").getD ((mapLookup p "late_swap").getD (.vBool false))))) := by
    rw [lookup_updateAssoc_manual_mem p p ph _ (by decide)]
    rfl
  have c9 : mapLookup (Normalizer.updateAssoc p (manualCanon p ph)) "scandal" =
      some (.vBool (Normalizer.truthy
        ((mapLookup p "丑闻").getD ((mapLookup p "scandal").getD (.vBool false))))) := by
    rw [lookup_updateAssoc_manual_mem p p ph _ (by decide)]
    rfl
  have c10 : mapLookup (Normalizer.updateAssoc p (manualCanon p ph)) "transfer_hot" =
      some (.vBool (Normalizer.truthy
        ((mapLookup p "转会热").getD ((mapLookup p "transfer_hot").getD (.vBool false))))) := by
    rw [lookup_updateAssoc_manual_mem p p ph _ (by decide)]
    rfl
  have c11 : mapLookup (Normalizer.updateAssoc p (manualCanon p ph)) "hype_score" =
      some (.vFloat (Normalizer.coerceFloat
        ((mapLookup p "热度").getD ((mapLookup p "hype_score").getD (.vInt 0))) 0)) := by
    rw [lookup_updateAssoc_manual_mem p p ph _ (by decide)]
    rfl
  have c12 : mapLookup (Normalizer.updateAssoc p (manualCanon p ph)) "derby_strength" =
      some (.vFloat (Normalizer.coerceFloat
        ((mapLookup p "宿敌强度").getD ((mapLookup p "derby_strength").getD (.vInt 0))) 0)) := by
    rw [lookup_updateAssoc_manual_mem p p ph _ (by decide)]
    rfl
  have c13 : mapLookup (Normalizer.updateAssoc p (manualCanon p ph)) "recent_tension" =
      some (.vFloat (Normalizer.coerceFloat
        ((mapLookup p "近期紧张").getD ((mapLookup p "recent_tension").getD (.vInt 0))) 0)) := by
    rw [lookup_updateAssoc_manual_mem p p ph _ (by decide)]
    rfl
  have c14 : mapLookup (Normalizer.updateAssoc p (manualCanon p ph)) "S" =
      some (.vInt (Normalizer.coerceInt
        ((mapLookup p "社会S").getD ((mapLookup p "S").getD (.vInt 0))) 0)) := by
    rw [lookup_updateAssoc_manual_mem p p ph _ (by decide)]
    rfl
  rw [manualCanon]
  simp only [getVD]
  rw [e1, e2, e3, e4, e5, e6, e7, e8, e9, e10, e11, e12, e13,
    c1, c2, c4, c5, c6, c7, c8, c9, c10, c11, c12, c13, c14]
  simp only [Option.getD_some, coerceFloat_restep, coerceInt_restep, truthy_restep]
  rfl

set_option maxHeartbeats 1000000 in
/-- C9: for every payload that already carries all 14 canonical keys at their
canonical types and none of the source markers, `normalize` is idempotent on
the canonical key set: one and two applications agree on every canonical key. -/
theorem c9_normalize_idempotent (p : Payload)
    (ht : canonicalTypedB p = true) (hm : noMarkersB p = true) :
    ∃ o₁ o₂, Normalizer.normalize p = .ok o₁ ∧ Normalizer.normalize o₁ = .ok o₂ ∧
      ∀ k ∈ canonicalKeys, mapLookup o₂ k = mapLookup o₁ k := by
  simp only [noMarkersB, Bool.and_eq_true, Bool.not_eq_true'] at hm
  obtain ⟨⟨⟨⟨⟨⟨hm1, hm2⟩, hm3⟩, hm4⟩, hm5⟩, hm6⟩, hm7⟩ := hm
  simp only [canonicalTypedB, Bool.and_eq_true] at ht
  obtain ⟨⟨⟨⟨⟨⟨⟨⟨⟨⟨⟨⟨⟨t1, t2⟩, t3⟩, t4⟩, t5⟩, t6⟩, t7⟩, t8⟩, t9⟩, t10⟩, t11⟩, t12⟩, t13⟩,
    t14⟩ := ht
  obtain ⟨q1, hp1⟩ := isFloatV_getV t1
  obtain ⟨q2, hp2⟩ := isFloatV_getV t2
  obtain ⟨s, hps⟩ := isStrV_getV t3
  obtain ⟨n4, hp4⟩ := isIntV_getV t4
  obtain ⟨n5, hp5⟩ := isIntV_getV t5
  obtain ⟨q6, hp6⟩ := isFloatV_getV t6
  obtain ⟨q7, hp7⟩ := isFloatV_getV t7
  obtain ⟨b8, hp8⟩ := isBoolV_getV t8
  obtain ⟨b9, hp9⟩ := isBoolV_getV t9
  obtain ⟨b10, hp10⟩ := isBoolV_getV t10
  obtain ⟨q11, hp11⟩ := isFloatV_getV t11
  obtain ⟨q12, hp12⟩ := isFloatV_getV t12
  obtain ⟨q13, hp13⟩ := isFloatV_getV t13
  obtain ⟨n14, hp14⟩ := isIntV_getV t14
  have hsrc : mapLookup p "source" = none := Option.isNone_iff_eq_none.mp hm1
  have hstage : mapLookup p "阶段" = none := lookup_none_of_keys _ _ hm7
  have hn1 : Normalizer.normalize p =
      .ok (Normalizer.updateAssoc p (manualCanon p (lowerS (if s = "" then "mid" else s)))) := by
    rw [normalize_manual p hsrc hm2 hm3 hm4, from_manual_ok p s hstage hps]
  have hne0 : (if s = "" then "mid" else s) ≠ "" := by
    by_cases hs : s = ""
    · rw [if_pos hs]; decide
    · rw [if_neg hs]; exact hs
  have hne : lowerS (if s = "" then "mid" else s) ≠ "" := lowerS_ne_empty hne0
  have hstage1 : mapLookup (Normalizer.updateAssoc p
      (manualCanon p (lowerS (if s = "" then "mid" else s)))) "阶段" = none := by
    rw [lookup_updateAssoc_manual_not_canon p p _ _ (by decide)]
    exact hstage
  have hphase1 : mapLookup (Normalizer.updateAssoc p
      (manualCanon p (lowerS (if s = "" then "mid" else s)))) "phase" =
      some (.vStr (lowerS (if s = "" then "mid" else s))) := by
    rw [lookup_updateAssoc_manual_mem p p _ _ (by decide)]
    rfl
  have hfm2 := from_manual_ok (Normalizer.updateAssoc p
      (manualCanon p (lowerS (if s = "" then "mid" else s))))
      (lowerS (if s = "" then "mid" else s)) hstage1 hphase1
  rw [if_neg hne, lowerS_idem (if s = "" then "mid" else s),
    manualCanon_restep p (lowerS (if s = "" then "mid" else s))] at hfm2
  have hkeys : (Normalizer.updateAssoc p
      (manualCanon p (lowerS (if s = "" then "mid" else s)))).map (fun kv => kv.1) =
      p.map (fun kv => kv.1) := by
    apply keys_updateAssoc
    intro kv hkv
    have h14 := mem_manualCanon_fst p _ hkv
    simp only [canonicalKeys, List.mem_cons, List.not_mem_nil, or_false] at h14
    rcases h14 with h|h|h|h|h|h|h|h|h|h|h|h|h|h
    · rw [h, hp1]; rfl
    · rw [h, hp2]; rfl
    · rw [h, hps]; rfl
    · rw [h, hp4]; rfl
    · rw [h, hp5]; rfl
    · rw [h, hp6]; rfl
    · rw [h, hp7]; rfl
    · rw [h, hp8]; rfl
    · rw [h, hp9]; rfl
    · rw [h, hp10]; rfl
    · rw [h, hp11]; rfl
    · rw [h, hp12]; rfl
    · rw [h, hp13]; rfl
    · rw [h, hp14]; rfl
  have hsrc1 : mapLookup (Normalizer.updateAssoc p
      (manualCanon p (lowerS (if s = "" then "mid" else s)))) "source" = none := by
    rw [lookup_updateAssoc_manual_not_canon p p _ _ (by decide)]
    exact hsrc
  have hn2 : Normalizer.normalize (Normalizer.updateAssoc p
      (manualCanon p (lowerS (if s = "" then "mid" else s)))) =
      .ok (Normalizer.updateAssoc
        (Normalizer.updateAssoc p (manualCanon p (lowerS (if s = "" then "mid" else s))))
        (manualCanon p (lowerS (if s = "" then "mid" else s)))) := by
    rw [normalize_manual _ hsrc1 (by rw [hkeys]; exact hm2) (by rw [hkeys]; exact hm3)
      (by rw [hkeys]; exact hm4), hfm2]
  refine ⟨_, _, hn1, hn2, ?_⟩
  intro k hk
  rw [lookup_updateAssoc_manual_mem _ p _ k hk, lookup_updateAssoc_manual_mem p p _ k hk]

/-- Witness for C9: the concrete already-canonical payload, with both
hypotheses discharged by computation. -/
theorem c9_witness :
    canonicalTypedB c9Payload = true ∧ noMarkersB c9Payload = true ∧
    ∃ o₁ o₂, Normalizer.normalize c9Payload = .ok o₁ ∧ Normalizer.normalize o₁ = .ok o₂ ∧
      ∀ k ∈ canonicalKeys, mapLookup o₂ k = mapLookup o₁ k :=
  ⟨by decide, by decide, c9_normalize_idempotent c9Payload (by decide) (by decide)⟩
